import Mathlib

/-!
# UAVCAN example node (`src/example.c`): shallow embedding and properties

The node runtime of `example.c` is embedded as pure functions over an explicit
`World` record holding the file-scope and function-scope statics of the C file
(`node_health`, `node_mode`, `started_at_sec`, `transfer_id`, the libcanard
instance), the state of the SocketCAN driver, the number of clock readings
taken so far, and a log of the externally visible calls the program makes.

Everything the C file only *uses* (libcanard, the SocketCAN driver, the DSDL
codecs, the monotonic clock, the DSDL constants) is taken as a parameter,
collected in `Env`.  Machine integers are natural numbers or integers with the
C conversions written out as `% 2 ^ w`.
-/

namespace UavcanExample

/-! ## Types declared by the included headers -/

/-- Modelled from the spec: the transfer kinds of `canard.h` (`CanardTransferType`), which is
not part of the sources; the spec lists them as broadcast / request / response. -/
inductive CanardTransferType
  | CanardTransferTypeResponse
  | CanardTransferTypeRequest
  | CanardTransferTypeBroadcast
  deriving DecidableEq, Repr

/-- Modelled from the spec: the `kind` argument of `requestOrRespond` (`CanardRequestResponse` in
`canard.h`, not part of the sources). -/
inductive CanardRequestResponse
  | CanardResponse
  | CanardRequest
  deriving DecidableEq, Repr

/-- Modelled from the spec: the health values of `uavcan/protocol/NodeStatus.h` (not part of the
sources); the spec lists OK, WARNING, ERROR, CRITICAL. -/
inductive NodeHealth
  | OK
  | WARNING
  | ERROR
  | CRITICAL
  deriving DecidableEq, Repr

/-- Modelled from the spec: the mode values of `uavcan/protocol/NodeStatus.h` (not part of the
sources); the spec lists INITIALIZATION, OPERATIONAL, MAINTENANCE, SOFTWARE_UPDATE. -/
inductive NodeMode
  | INITIALIZATION
  | OPERATIONAL
  | MAINTENANCE
  | SOFTWARE_UPDATE
  deriving DecidableEq, Repr

/-- One CAN frame (`CanardCANFrame`); the program never looks inside it. -/
structure CanardCANFrame where
  id : Nat
  data : List Nat
  data_len : Nat
  deriving DecidableEq, Repr

/-- The fields of `CanardRxTransfer` that `onTransferReceived` reads. -/
structure CanardRxTransfer where
  transfer_type : CanardTransferType
  data_type_id : Nat
  source_node_id : Nat
  transfer_id : Nat
  priority : Nat
  deriving DecidableEq, Repr

/-- The snapshot returned by `canardGetPoolAllocatorStatistics` (`uint16_t` block counts). -/
structure CanardPoolAllocatorStatistics where
  capacity_blocks : Nat
  current_usage_blocks : Nat
  peak_usage_blocks : Nat
  deriving DecidableEq, Repr

/-- The libcanard instance as the program sees it: the queue of pending outbound frames, which
`canardPeekTxQueue` / `canardPopTxQueue` expose head first, and the rest of the library state,
which the program never inspects. -/
structure CanardInstance where
  txQueue : List CanardCANFrame
  internal : Nat
  deriving DecidableEq, Repr

/-- The fields of `uavcan_protocol_NodeStatus` that `populateNodeStatus` assigns. -/
structure uavcan_protocol_NodeStatus where
  uptime_sec : Nat
  health : NodeHealth
  mode : NodeMode
  vendor_specific_status_code : Nat
  deriving DecidableEq, Repr

/-- The fields of `uavcan_protocol_SoftwareVersion` that `populateSoftwareVersion` assigns. -/
structure uavcan_protocol_SoftwareVersion where
  major : Nat
  minor : Nat
  vcs_commit : Nat
  optional_field_flags : Nat
  deriving DecidableEq, Repr

/-- The fields of `uavcan_protocol_HardwareVersion` that `populateHardwareVersion` assigns. -/
structure uavcan_protocol_HardwareVersion where
  certificate_of_authenticity : List Nat
  certificate_of_authenticity_len : Nat
  unique_id : List Nat
  deriving DecidableEq, Repr

/-- The fields of `uavcan_protocol_GetNodeInfoResponse` that `populateNodeInfoResponse` assigns. -/
structure uavcan_protocol_GetNodeInfoResponse where
  status : uavcan_protocol_NodeStatus
  software_version : uavcan_protocol_SoftwareVersion
  hardware_version : uavcan_protocol_HardwareVersion
  name_len : Nat
  name : String
  deriving DecidableEq, Repr

/-! ## Constants and external collaborators -/

/-- The constants that `example.c` takes from the DSDL headers, `canard.h` and the build
(`GIT_HASH`); their values are not in the sources, so they are parameters. -/
structure Consts where
  UAVCAN_PROTOCOL_GETNODEINFO_ID : Nat
  UAVCAN_PROTOCOL_GETNODEINFO_SIGNATURE : Nat
  UAVCAN_PROTOCOL_NODESTATUS_ID : Nat
  UAVCAN_PROTOCOL_NODESTATUS_SIGNATURE : Nat
  CANARD_TRANSFER_PRIORITY_LOW : Nat
  GIT_HASH : Nat
  UAVCAN_PROTOCOL_SOFTWAREVERSION_OPTIONAL_FIELD_FLAG_VCS_COMMIT : Nat

/-- The external collaborators of the node runtime, as functions.

* `clock k` is the value `getMonotonicTimestampUSec` computes at the `k`-th reading;
* the driver calls thread a driver state of type `σ`;
* the two submit operations return the library result, the new instance and the new value of
  the transfer-id variable they were given by reference;
* `canardRxIntake` is the frame intake of the library up to the point where it hands a completed
  transfer to the receive handler; it is given the accept filter. -/
structure Env (σ : Type) extends Consts where
  clock : Nat → Nat
  socketcanTransmit : σ → CanardCANFrame → Int → Int × σ
  socketcanReceive : σ → Int → Int × CanardCANFrame × σ
  canardBroadcast : CanardInstance → Nat → Nat → Nat → Nat → List Nat → Nat →
    Int × CanardInstance × Nat
  canardRequestOrRespond : CanardInstance → Nat → Nat → Nat → Nat → Nat →
    CanardRequestResponse → List Nat → Nat → Int × CanardInstance × Nat
  canardCleanupStaleTransfers : CanardInstance → Nat → CanardInstance
  canardGetPoolAllocatorStatistics : CanardInstance → CanardPoolAllocatorStatistics
  canardRxIntake : CanardInstance → CanardCANFrame → Nat →
    (Nat → Nat → CanardTransferType → Nat → Bool × Nat) →
    CanardInstance × Option CanardRxTransfer
  uavcan_protocol_NodeStatus_encode : uavcan_protocol_NodeStatus → List Nat
  uavcan_protocol_GetNodeInfoResponse_encode : uavcan_protocol_GetNodeInfoResponse → List Nat

/-- The calls the program makes to the outside, in program order. -/
inductive Event
  | printf_GetNodeInfo_request (source_node_id : Nat)
  | canardRequestOrRespond (destination_node_id data_type_signature data_type_id
      transfer_id priority : Nat) (kind : CanardRequestResponse) (payload : List Nat)
      (payload_len : Nat)
  | stderr_could_not_respond (resp_res : Int)
  | canardCleanupStaleTransfers (timestamp_usec : Nat)
  | printf_memory_pool_stats (capacity_blocks current_usage_blocks peak_usage_blocks
      peak_percent : Nat)
  | puts_WARNING_ENLARGE_MEMORY_POOL
  | canardBroadcast (data_type_signature data_type_id transfer_id priority : Nat)
      (payload : List Nat) (payload_len : Nat)
  | stderr_could_not_broadcast (bc_res : Int)
  | socketcanTransmit (txf : CanardCANFrame) (tx_res : Int)
  | stderr_transmit_error (tx_res : Int)
  | socketcanReceive (timeout_msec : Int) (rx_res : Int)
  | stderr_receive_error (rx_res : Int)
  | canardHandleRxFrame (rx_frame : CanardCANFrame) (timestamp : Nat)
  deriving DecidableEq, Repr

/-- The mutable state of the program: the statics of `example.c`, the driver, the number of
clock readings taken, and the log of outside calls. -/
structure World (σ : Type) where
  node_health : NodeHealth
  node_mode : NodeMode
  started_at_sec : Nat
  transfer_id : Nat
  canard : CanardInstance
  socketcan : σ
  clock_reads : Nat
  log : List Event

/-- The state at the start of `main`'s loop body: the statics as initialised in the file, a
library instance and an opened driver. -/
def initialWorld {σ : Type} (canard : CanardInstance) (socketcan : σ) : World σ :=
  { node_health := NodeHealth.OK
    node_mode := NodeMode.INITIALIZATION
    started_at_sec := 0
    transfer_id := 0
    canard := canard
    socketcan := socketcan
    clock_reads := 0
    log := [] }

/-! ## The functions of `example.c` -/

/-- `getMonotonicTimestampUSec`: one more reading of the clock, as a `uint64_t`.  The `abort()`
taken when `clock_gettime` fails is not modelled: the clock always answers. -/
def getMonotonicTimestampUSec {σ : Type} (env : Env σ) (w : World σ) : Nat × World σ :=
  (env.clock w.clock_reads % 2 ^ 64, { w with clock_reads := w.clock_reads + 1 })

/-- `readUniqueID`: the mock unique id `0, 1, ..., 15`. -/
def readUniqueID : List Nat :=
  List.range 16

/-- The lazy capture of the static `started_at_sec` at the top of `populateNodeStatus`. -/
def populateNodeStatus_epoch {σ : Type} (env : Env σ) (w : World σ) : World σ :=
  if w.started_at_sec = 0 then
    { (getMonotonicTimestampUSec env w).2 with
      started_at_sec := ((getMonotonicTimestampUSec env w).1 / 1000000) % 2 ^ 32 }
  else w

/-- `populateNodeStatus`. -/
def populateNodeStatus {σ : Type} (env : Env σ) (w : World σ) :
    uavcan_protocol_NodeStatus × World σ :=
  let w1 := populateNodeStatus_epoch env w
  let now := getMonotonicTimestampUSec env w1
  let uptime_sec := ((now.1 / 1000000 + 2 ^ 64 - w1.started_at_sec) % 2 ^ 64) % 2 ^ 32
  ({ uptime_sec := uptime_sec
     health := w1.node_health
     mode := w1.node_mode
     vendor_specific_status_code := 0 }, now.2)

/-- `makeNodeStatusMessage`: the encoded buffer (its length is the list length). -/
def makeNodeStatusMessage {σ : Type} (env : Env σ) (w : World σ) : List Nat × World σ :=
  (env.uavcan_protocol_NodeStatus_encode (populateNodeStatus env w).1,
   (populateNodeStatus env w).2)

/-- `populateSoftwareVersion`. -/
def populateSoftwareVersion (k : Consts) : uavcan_protocol_SoftwareVersion :=
  { major := 1
    minor := 0
    vcs_commit := k.GIT_HASH
    optional_field_flags := k.UAVCAN_PROTOCOL_SOFTWAREVERSION_OPTIONAL_FIELD_FLAG_VCS_COMMIT }

/-- `populateHardwareVersion`. -/
def populateHardwareVersion : uavcan_protocol_HardwareVersion :=
  { certificate_of_authenticity := []
    certificate_of_authenticity_len := 1
    unique_id := readUniqueID }

/-- `APP_NODE_NAME`. -/
def APP_NODE_NAME : String :=
  "org.revolve.uavcan.example"

/-- `populateNodeInfoResponse`. -/
def populateNodeInfoResponse {σ : Type} (env : Env σ) (w : World σ) :
    uavcan_protocol_GetNodeInfoResponse × World σ :=
  ({ status := (populateNodeStatus env w).1
     software_version := populateSoftwareVersion env.toConsts
     hardware_version := populateHardwareVersion
     name_len := APP_NODE_NAME.length
     name := APP_NODE_NAME }, (populateNodeStatus env w).2)

/-- `makeNodeInfoResponse`: the encoded buffer (its length is the list length). -/
def makeNodeInfoResponse {σ : Type} (env : Env σ) (w : World σ) : List Nat × World σ :=
  (env.uavcan_protocol_GetNodeInfoResponse_encode (populateNodeInfoResponse env w).1,
   (populateNodeInfoResponse env w).2)

/-- `onTransferReceived`. -/
def onTransferReceived {σ : Type} (env : Env σ) (w : World σ) (transfer : CanardRxTransfer) :
    World σ :=
  if transfer.transfer_type = CanardTransferType.CanardTransferTypeRequest ∧
      transfer.data_type_id = env.UAVCAN_PROTOCOL_GETNODEINFO_ID then
    let w1 : World σ :=
      { w with log := w.log ++ [Event.printf_GetNodeInfo_request transfer.source_node_id] }
    let msg := makeNodeInfoResponse env w1
    let buffer := msg.1
    let length := buffer.length % 2 ^ 32
    let w2 := msg.2
    let resp := env.canardRequestOrRespond w2.canard transfer.source_node_id
      env.UAVCAN_PROTOCOL_GETNODEINFO_SIGNATURE env.UAVCAN_PROTOCOL_GETNODEINFO_ID
      transfer.transfer_id transfer.priority CanardRequestResponse.CanardResponse buffer
      (length % 2 ^ 16)
    let w3 : World σ :=
      { w2 with
        canard := resp.2.1
        log := w2.log ++ [Event.canardRequestOrRespond transfer.source_node_id
          env.UAVCAN_PROTOCOL_GETNODEINFO_SIGNATURE env.UAVCAN_PROTOCOL_GETNODEINFO_ID
          transfer.transfer_id transfer.priority CanardRequestResponse.CanardResponse buffer
          (length % 2 ^ 16)] }
    if resp.1 ≤ 0 then
      { w3 with log := w3.log ++ [Event.stderr_could_not_respond resp.1] }
    else w3
  else w

/-- `shouldAcceptTransfer`: the returned flag and the value of `*out_data_type_signature`
after the call (`out_data_type_signature` is its value before). -/
def shouldAcceptTransfer (k : Consts) (out_data_type_signature : Nat) (data_type_id : Nat)
    (transfer_type : CanardTransferType) (_source_node_id : Nat) : Bool × Nat :=
  if transfer_type = CanardTransferType.CanardTransferTypeRequest ∧
      data_type_id = k.UAVCAN_PROTOCOL_GETNODEINFO_ID then
    (true, k.UAVCAN_PROTOCOL_GETNODEINFO_SIGNATURE)
  else
    (false, out_data_type_signature)

/-- The `peak_percent` computed in `process1HzTasks`: `100U * peak / capacity` in 32-bit
unsigned arithmetic, converted to `uint16_t`. -/
def peak_percent (stats : CanardPoolAllocatorStatistics) : Nat :=
  ((100 * stats.peak_usage_blocks) % 2 ^ 32 / stats.capacity_blocks) % 2 ^ 16

/-- The block `Printing the memory usage statistics` of `process1HzTasks`. -/
def process1HzTasks_memory_stats {σ : Type} (env : Env σ) (w : World σ) : World σ :=
  let stats := env.canardGetPoolAllocatorStatistics w.canard
  let w1 : World σ :=
    { w with
      log := w.log ++ [Event.printf_memory_pool_stats stats.capacity_blocks
        stats.current_usage_blocks stats.peak_usage_blocks (peak_percent stats)] }
  if peak_percent stats > 70 then
    { w1 with log := w1.log ++ [Event.puts_WARNING_ENLARGE_MEMORY_POOL] }
  else w1

/-- The block `Transmitting the node status message periodically` of `process1HzTasks`. -/
def process1HzTasks_node_status {σ : Type} (env : Env σ) (w : World σ) : World σ :=
  let msg := makeNodeStatusMessage env w
  let buffer := msg.1
  let length := buffer.length % 2 ^ 32
  let w1 := msg.2
  let bc := env.canardBroadcast w1.canard env.UAVCAN_PROTOCOL_NODESTATUS_SIGNATURE
    env.UAVCAN_PROTOCOL_NODESTATUS_ID w1.transfer_id env.CANARD_TRANSFER_PRIORITY_LOW buffer
    (length % 2 ^ 16)
  let w2 : World σ :=
    { w1 with
      canard := bc.2.1
      transfer_id := bc.2.2 % 2 ^ 8
      log := w1.log ++ [Event.canardBroadcast env.UAVCAN_PROTOCOL_NODESTATUS_SIGNATURE
        env.UAVCAN_PROTOCOL_NODESTATUS_ID w1.transfer_id env.CANARD_TRANSFER_PRIORITY_LOW buffer
        (length % 2 ^ 16)] }
  if bc.1 ≤ 0 then
    { w2 with log := w2.log ++ [Event.stderr_could_not_broadcast bc.1] }
  else w2

/-- `process1HzTasks`: the cleanup call, the two blocks, and the assignment to `node_mode`. -/
def process1HzTasks {σ : Type} (env : Env σ) (w : World σ) (timestamp_usec : Nat) : World σ :=
  let w1 : World σ :=
    { w with
      canard := env.canardCleanupStaleTransfers w.canard timestamp_usec
      log := w.log ++ [Event.canardCleanupStaleTransfers timestamp_usec] }
  let w2 := process1HzTasks_memory_stats env w1
  let w3 := process1HzTasks_node_status env w2
  { w3 with node_mode := NodeMode.OPERATIONAL }

/-- What the transmit loop of `processTxRxOnce` leaves behind: the driver state, the outbound
queue, and the send attempts made (frame and result), in order. -/
structure TxOutcome (σ : Type) where
  socketcan : σ
  txQueue : List CanardCANFrame
  attempts : List (CanardCANFrame × Int)

/-- The `// Transmitting` loop of `processTxRxOnce`.  The match on the queue is
`canardPeekTxQueue` (`[]` is `NULL`); continuing with `rest` is `canardPopTxQueue`. -/
def processTxRxOnce_transmitting {σ : Type}
    (socketcanTransmit : σ → CanardCANFrame → Int → Int × σ) :
    σ → List CanardCANFrame → TxOutcome σ
  | s, [] => { socketcan := s, txQueue := [], attempts := [] }
  | s, txf :: rest =>
    let tx_res := (socketcanTransmit s txf 0).1
    let s1 := (socketcanTransmit s txf 0).2
    if tx_res < 0 then
      let o := processTxRxOnce_transmitting socketcanTransmit s1 rest
      { o with attempts := (txf, tx_res) :: o.attempts }
    else if tx_res > 0 then
      let o := processTxRxOnce_transmitting socketcanTransmit s1 rest
      { o with attempts := (txf, tx_res) :: o.attempts }
    else
      { socketcan := s1, txQueue := txf :: rest, attempts := [(txf, tx_res)] }

/-- The log entries of the transmit loop: every `socketcanTransmit` call, followed by the
`Transmit error` report when its result is negative. -/
def transmitting_log : List (CanardCANFrame × Int) → List Event
  | [] => []
  | (txf, tx_res) :: rest =>
    if tx_res < 0 then
      Event.socketcanTransmit txf tx_res :: Event.stderr_transmit_error tx_res ::
        transmitting_log rest
    else
      Event.socketcanTransmit txf tx_res :: transmitting_log rest

/-- Modelled from the spec: the frame-intake operation of the Transport Library
(`canardHandleRxFrame`, not part of the sources), which "performs filtering (via the
accept-filter) and, on a completed transfer, invokes the receive handler synchronously before
returning". -/
def canardHandleRxFrame {σ : Type} (env : Env σ) (w : World σ) (rx_frame : CanardCANFrame)
    (timestamp : Nat) : World σ :=
  let r := env.canardRxIntake w.canard rx_frame timestamp (shouldAcceptTransfer env.toConsts)
  let w1 : World σ :=
    { w with
      canard := r.1
      log := w.log ++ [Event.canardHandleRxFrame rx_frame timestamp] }
  match r.2 with
  | none => w1
  | some transfer => onTransferReceived env w1 transfer

/-- `processTxRxOnce`. -/
def processTxRxOnce {σ : Type} (env : Env σ) (w : World σ) (timeout_msec : Int) : World σ :=
  let o := processTxRxOnce_transmitting env.socketcanTransmit w.socketcan w.canard.txQueue
  let w1 : World σ :=
    { w with
      socketcan := o.socketcan
      canard := { w.canard with txQueue := o.txQueue }
      log := w.log ++ transmitting_log o.attempts }
  let ts := getMonotonicTimestampUSec env w1
  let timestamp := ts.1
  let w2 := ts.2
  let rx := env.socketcanReceive w2.socketcan timeout_msec
  let rx_res := rx.1
  let rx_frame := rx.2.1
  let w3 : World σ :=
    { w2 with
      socketcan := rx.2.2
      log := w2.log ++ [Event.socketcanReceive timeout_msec rx_res] }
  if rx_res < 0 then
    { w3 with log := w3.log ++ [Event.stderr_receive_error rx_res] }
  else if rx_res > 0 then
    canardHandleRxFrame env w3 rx_frame timestamp
  else w3

/-- The loop state of `main`: the program state and the local `next_1hz_service_at`. -/
structure MainState (σ : Type) where
  world : World σ
  next_1hz_service_at : Nat

/-- The statement of `main` before the loop: `next_1hz_service_at` is a clock reading. -/
def main_start {σ : Type} (env : Env σ) (w : World σ) : MainState σ :=
  { world := (getMonotonicTimestampUSec env w).2
    next_1hz_service_at := (getMonotonicTimestampUSec env w).1 }

/-- The clock reading `ts` that one pass through the body of `main`'s loop takes after
`processTxRxOnce`. -/
def main_ts {σ : Type} (env : Env σ) (m : MainState σ) : Nat :=
  (getMonotonicTimestampUSec env (processTxRxOnce env m.world 10)).1

/-- One pass through the body of `main`'s `for (;;)` loop. -/
def main_iteration {σ : Type} (env : Env σ) (m : MainState σ) : MainState σ :=
  let w1 := processTxRxOnce env m.world 10
  let ts := (getMonotonicTimestampUSec env w1).1
  let w2 := (getMonotonicTimestampUSec env w1).2
  if ts ≥ m.next_1hz_service_at then
    { world := process1HzTasks env w2 ts
      next_1hz_service_at := (m.next_1hz_service_at + 1000000) % 2 ^ 64 }
  else
    { world := w2, next_1hz_service_at := m.next_1hz_service_at }

/-- The state of `main` after `n` passes through the loop body. -/
def main_iterations {σ : Type} (env : Env σ) : Nat → MainState σ → MainState σ
  | 0, m => m
  | n + 1, m => main_iterations env n (main_iteration env m)

/-! ## Interleavings of the three operations -/

/-- The operations that act on the node state. -/
inductive Op
  | processTxRxOnce (timeout_msec : Int)
  | onTransferReceived (transfer : CanardRxTransfer)
  | process1HzTasks (timestamp_usec : Nat)
  deriving DecidableEq, Repr

/-- Whether an operation is a `process1HzTasks` call. -/
def Op.isProcess1HzTasks : Op → Bool
  | Op.process1HzTasks _ => true
  | _ => false

/-- One operation applied to the program state. -/
def step {σ : Type} (env : Env σ) (w : World σ) : Op → World σ
  | Op.processTxRxOnce timeout_msec => processTxRxOnce env w timeout_msec
  | Op.onTransferReceived transfer => onTransferReceived env w transfer
  | Op.process1HzTasks timestamp_usec => process1HzTasks env w timestamp_usec

/-- A sequence of operations applied in order. -/
def run {σ : Type} (env : Env σ) (w : World σ) (ops : List Op) : World σ :=
  ops.foldl (step env) w

/-! ## Derived observations -/

/-- Whether a logged call submits a transfer to the library (`canardRequestOrRespond` or
`canardBroadcast`). -/
def Event.isSubmission : Event → Bool
  | Event.canardRequestOrRespond _ _ _ _ _ _ _ _ => true
  | Event.canardBroadcast _ _ _ _ _ _ => true
  | _ => false

/-- The transfers submitted to the library, in order. -/
def submissions (log : List Event) : List Event :=
  log.filter Event.isSubmission

/-- Whether a logged call is the `Memory pool stats` line, which `process1HzTasks` prints once
per call and nothing else prints. -/
def Event.isPoolStats : Event → Bool
  | Event.printf_memory_pool_stats _ _ _ _ => true
  | _ => false

/-- The number of `process1HzTasks` calls recorded in a log. -/
def firings (log : List Event) : Nat :=
  (log.filter Event.isPoolStats).length

/-- The outside calls made by one `process1HzTasks` call. -/
def process1HzTasks_emitted {σ : Type} (env : Env σ) (w : World σ) (timestamp_usec : Nat) :
    List Event :=
  (process1HzTasks env w timestamp_usec).log.drop w.log.length

/-- The outbound queue after a series of transmit loops, one per driver state in `ss`. -/
def transmitting_repeated {σ : Type} (socketcanTransmit : σ → CanardCANFrame → Int → Int × σ)
    (ss : List σ) (q : List CanardCANFrame) : List CanardCANFrame :=
  ss.foldl (fun q s => (processTxRxOnce_transmitting socketcanTransmit s q).txQueue) q

/-- The reference for the transmit loop: what a driver answers, and the state it ends in, when
it is handed the given frames one after another, each once, in order.  Every result in the list
is the driver's own answer `(socketcanTransmit s txf 0).1` at the state the driver is in then. -/
def driver_run {σ : Type} (socketcanTransmit : σ → CanardCANFrame → Int → Int × σ) :
    σ → List CanardCANFrame → List (CanardCANFrame × Int) × σ
  | s, [] => ([], s)
  | s, txf :: rest =>
    ((txf, (socketcanTransmit s txf 0).1) ::
        (driver_run socketcanTransmit (socketcanTransmit s txf 0).2 rest).1,
      (driver_run socketcanTransmit (socketcanTransmit s txf 0).2 rest).2)

/-- The number of passes, among the next `n` passes of the main loop from state `m`, whose
clock reading `ts` satisfies `ts >= next_1hz_service_at`. -/
def main_due_count {σ : Type} (env : Env σ) : Nat → MainState σ → Nat
  | 0, _ => 0
  | n + 1, m =>
    (if main_ts env m ≥ m.next_1hz_service_at then 1 else 0) +
      main_due_count env n (main_iteration env m)

/-! ## Concrete collaborators used to evaluate the program -/

/-- The numeric code of a mode in the UAVCAN `NodeStatus` message. -/
def NodeMode.code : NodeMode → Nat
  | NodeMode.OPERATIONAL => 0
  | NodeMode.INITIALIZATION => 1
  | NodeMode.MAINTENANCE => 2
  | NodeMode.SOFTWARE_UPDATE => 3

/-- The numeric code of a health value in the UAVCAN `NodeStatus` message. -/
def NodeHealth.code : NodeHealth → Nat
  | NodeHealth.OK => 0
  | NodeHealth.WARNING => 1
  | NodeHealth.ERROR => 2
  | NodeHealth.CRITICAL => 3

/-- The UAVCAN values of the constants. -/
def uavcanConsts : Consts :=
  { UAVCAN_PROTOCOL_GETNODEINFO_ID := 1
    UAVCAN_PROTOCOL_GETNODEINFO_SIGNATURE := 0xEE468A8121C46A9E
    UAVCAN_PROTOCOL_NODESTATUS_ID := 341
    UAVCAN_PROTOCOL_NODESTATUS_SIGNATURE := 0x0F0868D0C1A7C6F1
    CANARD_TRANSFER_PRIORITY_LOW := 24
    GIT_HASH := 0xBADC0FFE
    UAVCAN_PROTOCOL_SOFTWAREVERSION_OPTIONAL_FIELD_FLAG_VCS_COMMIT := 1 }

/-- A simple stand-in for the `NodeStatus` encoder: one list entry per field. -/
def simpleNodeStatus_encode (st : uavcan_protocol_NodeStatus) : List Nat :=
  [st.uptime_sec, st.health.code, st.mode.code, st.vendor_specific_status_code]

/-- A test double of the collaborators: the clock is `clock`, every send returns `tx_res`,
every receive times out, the pool statistics are `stats`, and a submitted transfer becomes one
frame at the tail of the outbound queue. -/
def testEnv (clock : Nat → Nat) (tx_res : Int) (stats : CanardPoolAllocatorStatistics) :
    Env Nat :=
  { toConsts := uavcanConsts
    clock := clock
    socketcanTransmit := fun s _ _ => (tx_res, s + 1)
    socketcanReceive := fun s _ => (0, ⟨0, [], 0⟩, s + 1)
    canardBroadcast := fun c _ id tid _ payload len =>
      (1, { c with txQueue := c.txQueue ++ [⟨id, payload, len⟩] }, tid + 1)
    canardRequestOrRespond := fun c _ _ id tid _ _ payload len =>
      (1, { c with txQueue := c.txQueue ++ [⟨id, payload, len⟩] }, tid)
    canardCleanupStaleTransfers := fun c _ => c
    canardGetPoolAllocatorStatistics := fun _ => stats
    canardRxIntake := fun c _ _ _ => (c, none)
    uavcan_protocol_NodeStatus_encode := simpleNodeStatus_encode
    uavcan_protocol_GetNodeInfoResponse_encode := fun r =>
      simpleNodeStatus_encode r.status ++ [r.name_len] }

/-- A clock that reads half a second for its first two readings and five seconds afterwards. -/
def earlyClock (k : Nat) : Nat :=
  if k < 2 then 500000 else 5000000

/-- A clock that advances by one millisecond per reading, starting at ten seconds, and stays at
the largest `uint64_t` value once it gets there. -/
def steadyClock (k : Nat) : Nat :=
  min (10000000 + 1000 * k) 18446744073709551615

/-- A pool of 32 blocks of which 3 were used at the peak. -/
def smallStats : CanardPoolAllocatorStatistics :=
  { capacity_blocks := 32, current_usage_blocks := 1, peak_usage_blocks := 3 }

/-- A pool of 99 blocks of which 70 were used at the peak (70.7 percent). -/
def tightStats : CanardPoolAllocatorStatistics :=
  { capacity_blocks := 99, current_usage_blocks := 70, peak_usage_blocks := 70 }

/-- An empty library instance. -/
def emptyCanard : CanardInstance :=
  { txQueue := [], internal := 0 }

/-- Three frames. -/
def threeFrames : List CanardCANFrame :=
  [⟨1, [10], 1⟩, ⟨2, [20], 1⟩, ⟨3, [30], 1⟩]

/-- A driver that reports a hard error for frames with an odd id and success otherwise. -/
def flakyTransmit (s : Nat) (txf : CanardCANFrame) (_flags : Int) : Int × Nat :=
  (if txf.id % 2 = 1 then -1 else 1, s + 1)

/-- A driver that always reports that the bus is full. -/
def blockedTransmit (s : Nat) (_txf : CanardCANFrame) (_flags : Int) : Int × Nat :=
  (0, s + 1)

/-! ## Properties -/

/-- A queue `txf :: rest` whose head send is not blocked: the loop pops and continues. -/
theorem transmitting_cons_of_ne_zero {σ : Type}
    (send : σ → CanardCANFrame → Int → Int × σ) (s : σ) (txf : CanardCANFrame)
    (rest : List CanardCANFrame) (h : (send s txf 0).1 ≠ 0) :
    processTxRxOnce_transmitting send s (txf :: rest) =
      { processTxRxOnce_transmitting send (send s txf 0).2 rest with
        attempts := (txf, (send s txf 0).1) ::
          (processTxRxOnce_transmitting send (send s txf 0).2 rest).attempts } := by
  simp only [processTxRxOnce_transmitting]
  by_cases hneg : (send s txf 0).1 < 0
  · simp [hneg]
  · have hpos : (send s txf 0).1 > 0 := by omega
    simp [hneg, hpos]

/-- A queue `txf :: rest` whose head send is blocked: the loop stops and keeps the queue. -/
theorem transmitting_cons_of_eq_zero {σ : Type}
    (send : σ → CanardCANFrame → Int → Int × σ) (s : σ) (txf : CanardCANFrame)
    (rest : List CanardCANFrame) (h : (send s txf 0).1 = 0) :
    processTxRxOnce_transmitting send s (txf :: rest) =
      { socketcan := (send s txf 0).2, txQueue := txf :: rest, attempts := [(txf, 0)] } := by
  simp [processTxRxOnce_transmitting, h]

/-- The shape of every transmit loop: the popped frames followed by the queue left are the
queue at entry; the attempts are the popped frames, each with a non-zero result, followed by
the head of the queue left with result zero when the queue left is not empty. -/
theorem transmitting_shape {σ : Type} (send : σ → CanardCANFrame → Int → Int × σ) (s : σ)
    (q : List CanardCANFrame) :
    ∃ done : List (CanardCANFrame × Int),
      q = done.map Prod.fst ++ (processTxRxOnce_transmitting send s q).txQueue ∧
      (∀ a ∈ done, a.2 ≠ 0) ∧
      (processTxRxOnce_transmitting send s q).attempts =
        done ++ ((processTxRxOnce_transmitting send s q).txQueue.take 1).map
          (fun f => (f, (0 : Int))) := by
  induction q generalizing s with
  | nil => exact ⟨[], by simp [processTxRxOnce_transmitting]⟩
  | cons txf rest ih =>
    by_cases h : (send s txf 0).1 = 0
    · refine ⟨[], ?_⟩
      rw [transmitting_cons_of_eq_zero send s txf rest h]
      simp
    · obtain ⟨done, hq, hnz, hatt⟩ := ih (send s txf 0).2
      refine ⟨(txf, (send s txf 0).1) :: done, ?_⟩
      rw [transmitting_cons_of_ne_zero send s txf rest h]
      refine ⟨?_, ?_, ?_⟩
      · simpa using hq
      · intro a ha
        rcases List.mem_cons.mp ha with rfl | ha
        · exact h
        · exact hnz a ha
      · simp only [hatt, List.cons_append]

/-- A transmit loop against a driver that never reports zero empties the queue and attempts
every frame once, in order. -/
theorem transmitting_of_never_zero {σ : Type} (send : σ → CanardCANFrame → Int → Int × σ)
    (hnz : ∀ s f, (send s f 0).1 ≠ 0) (s : σ) (q : List CanardCANFrame) :
    (processTxRxOnce_transmitting send s q).txQueue = [] ∧
      (processTxRxOnce_transmitting send s q).attempts.map Prod.fst = q := by
  induction q generalizing s with
  | nil => simp [processTxRxOnce_transmitting]
  | cons txf rest ih =>
    rw [transmitting_cons_of_ne_zero send s txf rest (hnz s txf)]
    obtain ⟨h1, h2⟩ := ih (send s txf 0).2
    exact ⟨h1, by simp [h2]⟩

/-- A transmit loop against a driver that always reports zero keeps the queue and makes one
attempt, on the head, when there is one. -/
theorem transmitting_of_always_zero {σ : Type} (send : σ → CanardCANFrame → Int → Int × σ)
    (hz : ∀ s f, (send s f 0).1 = 0) (s : σ) (q : List CanardCANFrame) :
    (processTxRxOnce_transmitting send s q).txQueue = q ∧
      (processTxRxOnce_transmitting send s q).attempts =
        (q.take 1).map (fun f => (f, (0 : Int))) := by
  cases q with
  | nil => simp [processTxRxOnce_transmitting]
  | cons txf rest =>
    rw [transmitting_cons_of_eq_zero send s txf rest (hz s txf)]
    simp

/-- The reference run hands over every frame, in order. -/
theorem driver_run_frames {σ : Type} (send : σ → CanardCANFrame → Int → Int × σ) (s : σ)
    (q : List CanardCANFrame) : (driver_run send s q).1.map Prod.fst = q := by
  induction q generalizing s with
  | nil => rfl
  | cons txf rest ih => simp [driver_run, ih]

/-- The transmit loop against the reference: the loop makes the driver calls of the reference
run on the first `k` frames, all answered non-zero, pops those `k` frames, and then either the
queue is exhausted, or the driver answers zero for the next frame, which is attempted and left
at the head. -/
theorem transmitting_spec {σ : Type} (send : σ → CanardCANFrame → Int → Int × σ) (s : σ)
    (q : List CanardCANFrame) :
    ∃ k, k ≤ q.length ∧
      (processTxRxOnce_transmitting send s q).txQueue = q.drop k ∧
      (∀ a ∈ (driver_run send s (q.take k)).1, a.2 ≠ 0) ∧
      (((processTxRxOnce_transmitting send s q).txQueue = [] ∧
          (processTxRxOnce_transmitting send s q).attempts =
            (driver_run send s (q.take k)).1 ∧
          (processTxRxOnce_transmitting send s q).socketcan =
            (driver_run send s (q.take k)).2) ∨
        (∃ f rest, (processTxRxOnce_transmitting send s q).txQueue = f :: rest ∧
          (send (driver_run send s (q.take k)).2 f 0).1 = 0 ∧
          (processTxRxOnce_transmitting send s q).attempts =
            (driver_run send s (q.take k)).1 ++ [(f, 0)] ∧
          (processTxRxOnce_transmitting send s q).socketcan =
            (send (driver_run send s (q.take k)).2 f 0).2)) := by
  induction q generalizing s with
  | nil =>
    refine ⟨0, le_refl _, rfl, ?_, Or.inl ⟨rfl, rfl, rfl⟩⟩
    intro a ha
    simp [driver_run] at ha
  | cons txf rest ih =>
    by_cases h : (send s txf 0).1 = 0
    · refine ⟨0, Nat.zero_le _, ?_, ?_, Or.inr ⟨txf, rest, ?_, ?_, ?_, ?_⟩⟩
      · rw [transmitting_cons_of_eq_zero send s txf rest h]
        rfl
      · intro a ha
        simp [driver_run] at ha
      · rw [transmitting_cons_of_eq_zero send s txf rest h]
      · exact h
      · rw [transmitting_cons_of_eq_zero send s txf rest h]
        rfl
      · rw [transmitting_cons_of_eq_zero send s txf rest h]
        rfl
    · obtain ⟨k, hk, hq, hnz, hcase⟩ := ih (send s txf 0).2
      refine ⟨k + 1, Nat.succ_le_succ hk, ?_, ?_, ?_⟩
      · rw [transmitting_cons_of_ne_zero send s txf rest h]
        exact hq
      · intro a ha
        simp only [List.take_succ_cons, driver_run, List.mem_cons] at ha
        rcases ha with rfl | ha
        · exact h
        · exact hnz a ha
      · rw [transmitting_cons_of_ne_zero send s txf rest h]
        simp only [List.take_succ_cons, driver_run]
        rcases hcase with ⟨h1, h2, h3⟩ | ⟨f, rest2, h1, h2, h3, h4⟩
        · exact Or.inl ⟨h1, by rw [h2], h3⟩
        · exact Or.inr ⟨f, rest2, h1, h2, by rw [h3]; rfl, h4⟩

/-- Against a driver that never answers zero the transmit loop is the reference run on the
whole queue. -/
theorem transmitting_eq_driver_run {σ : Type} (send : σ → CanardCANFrame → Int → Int × σ)
    (hnz : ∀ s f, (send s f 0).1 ≠ 0) (s : σ) (q : List CanardCANFrame) :
    (processTxRxOnce_transmitting send s q).attempts = (driver_run send s q).1 ∧
      (processTxRxOnce_transmitting send s q).socketcan = (driver_run send s q).2 := by
  induction q generalizing s with
  | nil => exact ⟨rfl, rfl⟩
  | cons txf rest ih =>
    rw [transmitting_cons_of_ne_zero send s txf rest (hnz s txf)]
    obtain ⟨h1, h2⟩ := ih (send s txf 0).2
    exact ⟨by simp only [driver_run, h1], by simp only [driver_run, h2]⟩

/-- C1: `shouldAcceptTransfer` returns true exactly for a Request whose data-type id is the
GetNodeInfo id; its result does not depend on the source node address; whenever it returns
true the output signature is the GetNodeInfo signature (and otherwise the output signature is
left as it was). -/
theorem C1_shouldAcceptTransfer (k : Consts) (out_sig data_type_id : Nat)
    (transfer_type : CanardTransferType) (source_node_id : Nat) :
    ((shouldAcceptTransfer k out_sig data_type_id transfer_type source_node_id).1 = true ↔
        (transfer_type = CanardTransferType.CanardTransferTypeRequest ∧
          data_type_id = k.UAVCAN_PROTOCOL_GETNODEINFO_ID)) ∧
      (∀ other_source : Nat,
        shouldAcceptTransfer k out_sig data_type_id transfer_type other_source =
          shouldAcceptTransfer k out_sig data_type_id transfer_type source_node_id) ∧
      (shouldAcceptTransfer k out_sig data_type_id transfer_type source_node_id).2 =
        (if (shouldAcceptTransfer k out_sig data_type_id transfer_type source_node_id).1 = true
          then k.UAVCAN_PROTOCOL_GETNODEINFO_SIGNATURE else out_sig) := by
  unfold shouldAcceptTransfer
  by_cases h : transfer_type = CanardTransferType.CanardTransferTypeRequest ∧
      data_type_id = k.UAVCAN_PROTOCOL_GETNODEINFO_ID
  · simp [h]
  · simp only [if_neg h]
    simp [h]

/-- C3: one transmit loop of `processTxRxOnce` hands the driver a leading segment of the queue
`q`, in order and each frame once, and every recorded result is the driver's own answer: for
some `k` the loop makes exactly the driver calls of the reference run on the first `k` frames,
all answered non-zero, and pops exactly those; then either the queue is exhausted (no send
answered zero, the queue left is empty), or the driver answers zero for frame `k`, which is the
last attempt and the head of the queue left, the rest of `q` from that frame on; the driver ends
in the state those calls leave it in.  The next transmit loop, whatever the driver is and
whatever newer frames have been queued behind, makes its first driver call on that same
frame. -/
theorem C3_transmit_fifo {σ : Type} (send : σ → CanardCANFrame → Int → Int × σ) (s : σ)
    (q : List CanardCANFrame) :
    (processTxRxOnce_transmitting send s q).attempts.map Prod.fst <+: q ∧
      (processTxRxOnce_transmitting send s q).txQueue <:+ q ∧
      (∃ done : List (CanardCANFrame × Int),
        q = done.map Prod.fst ++ (processTxRxOnce_transmitting send s q).txQueue ∧
        (∀ a ∈ done, a.2 ≠ 0) ∧
        (processTxRxOnce_transmitting send s q).attempts =
          done ++ ((processTxRxOnce_transmitting send s q).txQueue.take 1).map
            (fun f => (f, (0 : Int)))) ∧
      (∃ k, k ≤ q.length ∧
        (processTxRxOnce_transmitting send s q).txQueue = q.drop k ∧
        (∀ a ∈ (driver_run send s (q.take k)).1, a.2 ≠ 0) ∧
        (((processTxRxOnce_transmitting send s q).txQueue = [] ∧
            (processTxRxOnce_transmitting send s q).attempts =
              (driver_run send s (q.take k)).1 ∧
            (processTxRxOnce_transmitting send s q).socketcan =
              (driver_run send s (q.take k)).2) ∨
          (∃ f rest, (processTxRxOnce_transmitting send s q).txQueue = f :: rest ∧
            (send (driver_run send s (q.take k)).2 f 0).1 = 0 ∧
            (processTxRxOnce_transmitting send s q).attempts =
              (driver_run send s (q.take k)).1 ++ [(f, 0)] ∧
            (processTxRxOnce_transmitting send s q).socketcan =
              (send (driver_run send s (q.take k)).2 f 0).2))) ∧
      (∀ (send2 : σ → CanardCANFrame → Int → Int × σ) (s2 : σ)
          (newer : List CanardCANFrame),
        (processTxRxOnce_transmitting send2 s2
            ((processTxRxOnce_transmitting send s q).txQueue ++ newer)).attempts.head? =
          (((processTxRxOnce_transmitting send s q).txQueue ++ newer).head?).map
            (fun f => (f, (send2 s2 f 0).1))) := by
  obtain ⟨done, hq, hnz, hatt⟩ := transmitting_shape send s q
  refine ⟨?_, ⟨done.map Prod.fst, hq.symm⟩, ⟨done, hq, hnz, hatt⟩,
    transmitting_spec send s q, ?_⟩
  · rw [hatt]
    conv_rhs => rw [hq]
    simp only [List.map_append, List.map_map]
    refine (List.prefix_append_right_inj _).mpr ?_
    have : (Prod.fst ∘ fun f : CanardCANFrame => (f, (0 : Int))) = id := rfl
    rw [this, List.map_id]
    exact List.take_prefix _ _
  · intro send2 s2 newer
    cases hl : (processTxRxOnce_transmitting send s q).txQueue ++ newer with
    | nil => simp [processTxRxOnce_transmitting]
    | cons f rest =>
      by_cases h0 : (send2 s2 f 0).1 = 0
      · rw [transmitting_cons_of_eq_zero send2 s2 f rest h0]
        simp [h0]
      · rw [transmitting_cons_of_ne_zero send2 s2 f rest h0]
        simp

/-- C10: against a driver whose send never returns zero, the transmit loop of
`processTxRxOnce` is total and makes exactly the driver calls of the reference run on the whole
queue: one call per queued frame, in queue order, each recorded with the driver's own answer
(negative or positive) at the state the earlier calls left, and the driver ends in the state
those calls leave it in; so there are as many attempts as frames, a frame with a negative result
is popped and not retried, and the queue is left empty. -/
theorem C10_transmit_drains {σ : Type} (send : σ → CanardCANFrame → Int → Int × σ)
    (hnz : ∀ s f, (send s f 0).1 ≠ 0) (s : σ) (q : List CanardCANFrame) :
    (processTxRxOnce_transmitting send s q).txQueue = [] ∧
      (processTxRxOnce_transmitting send s q).attempts.map Prod.fst = q ∧
      (processTxRxOnce_transmitting send s q).attempts.length = q.length ∧
      (∀ a ∈ (processTxRxOnce_transmitting send s q).attempts, a.2 < 0 ∨ a.2 > 0) ∧
      (processTxRxOnce_transmitting send s q).attempts = (driver_run send s q).1 ∧
      (processTxRxOnce_transmitting send s q).socketcan = (driver_run send s q).2 := by
  obtain ⟨h1, h2⟩ := transmitting_of_never_zero send hnz s q
  obtain ⟨done, _, hdone, hatt⟩ := transmitting_shape send s q
  obtain ⟨h3, h4⟩ := transmitting_eq_driver_run send hnz s q
  refine ⟨h1, h2, ?_, ?_, h3, h4⟩
  · have := congrArg List.length h2
    simpa using this
  · intro a ha
    rw [hatt, h1] at ha
    simp only [List.take_nil, List.map_nil, List.append_nil] at ha
    have := hdone a ha
    omega

/-- C10 at a concrete input: three frames against a driver that fails hard on odd ids. -/
theorem C10_transmit_drains_witness :
    (processTxRxOnce_transmitting flakyTransmit 0 threeFrames).txQueue = [] ∧
      (processTxRxOnce_transmitting flakyTransmit 0 threeFrames).attempts =
        [(⟨1, [10], 1⟩, -1), (⟨2, [20], 1⟩, 1), (⟨3, [30], 1⟩, -1)] ∧
      (processTxRxOnce_transmitting flakyTransmit 0 threeFrames).socketcan = 3 :=
  have h := C10_transmit_drains flakyTransmit
    (by intro s f; unfold flakyTransmit; dsimp only; split <;> decide) 0 threeFrames
  ⟨h.1, h.2.2.2.2.1.trans (by decide), h.2.2.2.2.2.trans (by decide)⟩

/-- When the driver blocks every send and no frame is received, `processTxRxOnce` leaves the
outbound queue as it was. -/
theorem processTxRxOnce_txQueue_of_blocked {σ : Type} (env : Env σ)
    (hblock : ∀ s f, (env.socketcanTransmit s f 0).1 = 0)
    (hquiet : ∀ s t, (env.socketcanReceive s t).1 ≤ 0) (w : World σ) (timeout_msec : Int) :
    (processTxRxOnce env w timeout_msec).canard.txQueue = w.canard.txQueue := by
  have hq := (transmitting_of_always_zero env.socketcanTransmit hblock w.socketcan
    w.canard.txQueue).1
  unfold processTxRxOnce
  dsimp only
  split
  · simpa [getMonotonicTimestampUSec] using hq
  · split
    · rename_i h1 h2
      exact absurd h2 (not_lt.mpr (hquiet _ _))
    · simpa [getMonotonicTimestampUSec] using hq

/-- C2: when the driver reports zero ("would block") on every send, the transmit loop of
`processTxRxOnce` leaves the outbound queue exactly as it was and makes exactly one send attempt,
on the head frame, when the queue is not empty (none when it is empty); so the queue is the same
after any number of transmit loops, whatever state the driver is in at each of them, a queue of
100 frames keeps its 100 frames, and the queue is the same after any number of whole
`processTxRxOnce` calls during which no frame is received.  The one attempt is the driver call
on the head frame, recorded with the driver's answer, and the driver is left in the state that
call returns (untouched when the queue is empty). -/
theorem C2_blocked_send_keeps_queue {σ : Type} (env : Env σ)
    (hblock : ∀ s f, (env.socketcanTransmit s f 0).1 = 0) :
    (∀ (s : σ) (q : List CanardCANFrame),
      (processTxRxOnce_transmitting env.socketcanTransmit s q).txQueue = q ∧
      (processTxRxOnce_transmitting env.socketcanTransmit s q).attempts =
        (q.take 1).map (fun f => (f, (0 : Int))) ∧
      (processTxRxOnce_transmitting env.socketcanTransmit s q).attempts.length =
        (if q = [] then 0 else 1)) ∧
    (∀ (ss : List σ) (q : List CanardCANFrame),
      transmitting_repeated env.socketcanTransmit ss q = q) ∧
    (∀ (ss : List σ) (q : List CanardCANFrame), q.length = 100 →
      (transmitting_repeated env.socketcanTransmit ss q).length = 100) ∧
    ((∀ s t, (env.socketcanReceive s t).1 ≤ 0) →
      ∀ (w : World σ) (timeouts : List Int),
        (run env w (timeouts.map Op.processTxRxOnce)).canard.txQueue = w.canard.txQueue) ∧
    (∀ (s : σ) (txf : CanardCANFrame) (rest : List CanardCANFrame),
      (processTxRxOnce_transmitting env.socketcanTransmit s (txf :: rest)).attempts =
        [(txf, (env.socketcanTransmit s txf 0).1)] ∧
      (processTxRxOnce_transmitting env.socketcanTransmit s (txf :: rest)).socketcan =
        (env.socketcanTransmit s txf 0).2 ∧
      (processTxRxOnce_transmitting env.socketcanTransmit s []).socketcan = s) := by
  have hrep : ∀ (ss : List σ) (q : List CanardCANFrame),
      transmitting_repeated env.socketcanTransmit ss q = q := by
    intro ss
    induction ss with
    | nil => intro q; rfl
    | cons s ss ih =>
      intro q
      unfold transmitting_repeated at ih ⊢
      rw [List.foldl_cons, (transmitting_of_always_zero env.socketcanTransmit hblock s q).1]
      exact ih q
  refine ⟨?_, hrep, ?_, ?_, ?_⟩
  rotate_right
  · intro s txf rest
    rw [transmitting_cons_of_eq_zero env.socketcanTransmit s txf rest (hblock s txf),
      hblock s txf]
    exact ⟨rfl, rfl, rfl⟩
  · intro s q
    obtain ⟨h1, h2⟩ := transmitting_of_always_zero env.socketcanTransmit hblock s q
    refine ⟨h1, h2, ?_⟩
    rw [h2]
    cases q <;> simp
  · intro ss q hq
    rw [hrep ss q, hq]
  · intro hquiet w timeouts
    induction timeouts generalizing w with
    | nil => rfl
    | cons t ts ih =>
      unfold run at ih ⊢
      rw [List.map_cons, List.foldl_cons, ih]
      exact processTxRxOnce_txQueue_of_blocked env hblock hquiet w t

/-- C2 at a concrete input: three frames against a driver that always blocks, two transmit
loops and two whole `processTxRxOnce` calls. -/
theorem C2_blocked_send_keeps_queue_witness :
    (processTxRxOnce_transmitting (testEnv steadyClock 0 smallStats).socketcanTransmit 0
        threeFrames).attempts = [(⟨1, [10], 1⟩, 0)] ∧
      transmitting_repeated (testEnv steadyClock 0 smallStats).socketcanTransmit [0, 7]
        threeFrames = threeFrames ∧
      (run (testEnv steadyClock 0 smallStats)
        (initialWorld { txQueue := threeFrames, internal := 0 } 0)
        ([10, 10].map Op.processTxRxOnce)).canard.txQueue = threeFrames :=
  have h := C2_blocked_send_keeps_queue (testEnv steadyClock 0 smallStats) (fun _ _ => rfl)
  ⟨(h.1 0 threeFrames).2.1, h.2.1 [0, 7] threeFrames,
    h.2.2.2.1 (fun _ _ => Int.le_refl 0) (initialWorld { txQueue := threeFrames, internal := 0 } 0)
      [10, 10]⟩

/-! ### The node state under the operations -/

/-- The status built by `populateNodeStatus` carries the current `node_mode`. -/
theorem populateNodeStatus_mode {σ : Type} (env : Env σ) (w : World σ) :
    (populateNodeStatus env w).1.mode = w.node_mode := by
  unfold populateNodeStatus populateNodeStatus_epoch getMonotonicTimestampUSec
  dsimp only
  split <;> rfl

/-- `populateNodeStatus` changes nothing but `started_at_sec` and the number of clock readings. -/
theorem populateNodeStatus_frame {σ : Type} (env : Env σ) (w : World σ) :
    (populateNodeStatus env w).2.node_mode = w.node_mode ∧
      (populateNodeStatus env w).2.node_health = w.node_health ∧
      (populateNodeStatus env w).2.transfer_id = w.transfer_id ∧
      (populateNodeStatus env w).2.canard = w.canard ∧
      (populateNodeStatus env w).2.socketcan = w.socketcan ∧
      (populateNodeStatus env w).2.log = w.log := by
  unfold populateNodeStatus populateNodeStatus_epoch getMonotonicTimestampUSec
  dsimp only
  split <;> simp

/-- The status built by `populateNodeStatus` does not depend on the log or the library
instance. -/
theorem populateNodeStatus_status_congr {σ : Type} (env : Env σ) (w v : World σ)
    (h1 : v.node_mode = w.node_mode) (h2 : v.node_health = w.node_health)
    (h3 : v.started_at_sec = w.started_at_sec) (h4 : v.clock_reads = w.clock_reads) :
    (populateNodeStatus env v).1 = (populateNodeStatus env w).1 := by
  unfold populateNodeStatus populateNodeStatus_epoch getMonotonicTimestampUSec
  dsimp only
  rw [h3, h4]
  split <;> simp [h1, h2, h3, h4]

/-- The log written by `onTransferReceived`. -/
theorem onTransferReceived_log {σ : Type} (env : Env σ) (w : World σ)
    (transfer : CanardRxTransfer) :
    (onTransferReceived env w transfer).log = w.log ++
      (if transfer.transfer_type = CanardTransferType.CanardTransferTypeRequest ∧
          transfer.data_type_id = env.UAVCAN_PROTOCOL_GETNODEINFO_ID then
        [Event.printf_GetNodeInfo_request transfer.source_node_id,
          Event.canardRequestOrRespond transfer.source_node_id
            env.UAVCAN_PROTOCOL_GETNODEINFO_SIGNATURE env.UAVCAN_PROTOCOL_GETNODEINFO_ID
            transfer.transfer_id transfer.priority CanardRequestResponse.CanardResponse
            (makeNodeInfoResponse env w).1
            ((makeNodeInfoResponse env w).1.length % 2 ^ 32 % 2 ^ 16)] ++
          (if (env.canardRequestOrRespond w.canard transfer.source_node_id
              env.UAVCAN_PROTOCOL_GETNODEINFO_SIGNATURE env.UAVCAN_PROTOCOL_GETNODEINFO_ID
              transfer.transfer_id transfer.priority CanardRequestResponse.CanardResponse
              (makeNodeInfoResponse env w).1
              ((makeNodeInfoResponse env w).1.length % 2 ^ 32 % 2 ^ 16)).1 ≤ 0 then
            [Event.stderr_could_not_respond
              (env.canardRequestOrRespond w.canard transfer.source_node_id
                env.UAVCAN_PROTOCOL_GETNODEINFO_SIGNATURE env.UAVCAN_PROTOCOL_GETNODEINFO_ID
                transfer.transfer_id transfer.priority CanardRequestResponse.CanardResponse
                (makeNodeInfoResponse env w).1
                ((makeNodeInfoResponse env w).1.length % 2 ^ 32 % 2 ^ 16)).1]
          else [])
      else []) := by
  unfold onTransferReceived
  by_cases hc : transfer.transfer_type = CanardTransferType.CanardTransferTypeRequest ∧
      transfer.data_type_id = env.UAVCAN_PROTOCOL_GETNODEINFO_ID
  · simp only [if_pos hc]
    have hst : (populateNodeStatus env
        { w with log := w.log ++ [Event.printf_GetNodeInfo_request transfer.source_node_id] }).1 =
        (populateNodeStatus env w).1 :=
      populateNodeStatus_status_congr env w _ rfl rfl rfl rfl
    have hfr := populateNodeStatus_frame env
      { w with log := w.log ++ [Event.printf_GetNodeInfo_request transfer.source_node_id] }
    have hbuf : (makeNodeInfoResponse env
        { w with log := w.log ++ [Event.printf_GetNodeInfo_request transfer.source_node_id] }).1 =
        (makeNodeInfoResponse env w).1 := by
      simp only [makeNodeInfoResponse, populateNodeInfoResponse, hst]
    have hcan : (makeNodeInfoResponse env
        { w with log := w.log ++ [Event.printf_GetNodeInfo_request transfer.source_node_id] }).2.canard =
        w.canard := by
      simp only [makeNodeInfoResponse, populateNodeInfoResponse]
      exact hfr.2.2.2.1
    have hlog : (makeNodeInfoResponse env
        { w with log := w.log ++ [Event.printf_GetNodeInfo_request transfer.source_node_id] }).2.log =
        w.log ++ [Event.printf_GetNodeInfo_request transfer.source_node_id] := by
      simp only [makeNodeInfoResponse, populateNodeInfoResponse]
      exact hfr.2.2.2.2.2
    rw [hbuf, hcan]
    split <;> simp [hlog]
  · simp [if_neg hc]

/-- `onTransferReceived` does not write `node_mode`. -/
theorem onTransferReceived_node_mode {σ : Type} (env : Env σ) (w : World σ)
    (transfer : CanardRxTransfer) :
    (onTransferReceived env w transfer).node_mode = w.node_mode := by
  unfold onTransferReceived
  have hfr := populateNodeStatus_frame env
    { w with log := w.log ++ [Event.printf_GetNodeInfo_request transfer.source_node_id] }
  split
  · dsimp only
    split <;> simpa [makeNodeInfoResponse, populateNodeInfoResponse] using hfr.1
  · rfl

/-- `processTxRxOnce` does not write `node_mode`. -/
theorem processTxRxOnce_node_mode {σ : Type} (env : Env σ) (w : World σ) (timeout_msec : Int) :
    (processTxRxOnce env w timeout_msec).node_mode = w.node_mode := by
  unfold processTxRxOnce
  dsimp only
  split
  · rfl
  · split
    · unfold canardHandleRxFrame
      dsimp only
      split
      · rfl
      · rw [onTransferReceived_node_mode]
        rfl
    · rfl

/-- `process1HzTasks` leaves `node_mode` at OPERATIONAL. -/
theorem process1HzTasks_node_mode {σ : Type} (env : Env σ) (w : World σ) (timestamp_usec : Nat) :
    (process1HzTasks env w timestamp_usec).node_mode = NodeMode.OPERATIONAL := by
  unfold process1HzTasks
  rfl

/-- The mode after one operation. -/
theorem step_node_mode {σ : Type} (env : Env σ) (w : World σ) (op : Op) :
    (step env w op).node_mode =
      (if op.isProcess1HzTasks = true then NodeMode.OPERATIONAL else w.node_mode) := by
  cases op with
  | processTxRxOnce t => simpa [step, Op.isProcess1HzTasks] using processTxRxOnce_node_mode env w t
  | onTransferReceived t =>
    simpa [step, Op.isProcess1HzTasks] using onTransferReceived_node_mode env w t
  | process1HzTasks t => simpa [step, Op.isProcess1HzTasks] using process1HzTasks_node_mode env w t

/-- The mode after a sequence of operations. -/
theorem run_node_mode {σ : Type} (env : Env σ) (w : World σ) (ops : List Op) :
    (run env w ops).node_mode =
      (if ops.any Op.isProcess1HzTasks = true then NodeMode.OPERATIONAL else w.node_mode) := by
  induction ops generalizing w with
  | nil => simp [run]
  | cons op ops ih =>
    have h := ih (step env w op)
    unfold run at h ⊢
    rw [List.foldl_cons, h, step_node_mode]
    cases hop : op.isProcess1HzTasks <;> simp [hop]

/-- C6: after any sequence of `processTxRxOnce`, `onTransferReceived` and `process1HzTasks`
calls from the initial state, `node_mode` is INITIALIZATION when the sequence contains no
`process1HzTasks` call and OPERATIONAL when it contains one (so it is always one of the two),
whatever the collaborators return; one operation leaves the mode OPERATIONAL when it is a
`process1HzTasks` call and leaves it as it was otherwise, so only `process1HzTasks` writes the
mode and nothing takes it from OPERATIONAL back to INITIALIZATION. -/
theorem C6_node_mode_transitions {σ : Type} (env : Env σ) (canard : CanardInstance)
    (socketcan : σ) (ops : List Op) :
    (run env (initialWorld canard socketcan) ops).node_mode =
        (if ops.any Op.isProcess1HzTasks = true then NodeMode.OPERATIONAL
          else NodeMode.INITIALIZATION) ∧
      ((run env (initialWorld canard socketcan) ops).node_mode = NodeMode.INITIALIZATION ∨
        (run env (initialWorld canard socketcan) ops).node_mode = NodeMode.OPERATIONAL) ∧
      (∀ (w : World σ) (op : Op), (step env w op).node_mode =
        (if op.isProcess1HzTasks = true then NodeMode.OPERATIONAL else w.node_mode)) ∧
      (∀ (w : World σ) (more : List Op), (run env w more).node_mode =
        (if more.any Op.isProcess1HzTasks = true then NodeMode.OPERATIONAL
          else w.node_mode)) ∧
      (∀ (w : World σ) (op : Op), w.node_mode ≠ NodeMode.OPERATIONAL ∨
        (step env w op).node_mode = NodeMode.OPERATIONAL) := by
  have h := run_node_mode env (initialWorld canard socketcan) ops
  refine ⟨h, ?_, step_node_mode env, run_node_mode env, ?_⟩
  · rw [h]
    split
    · exact Or.inr rfl
    · exact Or.inl rfl
  · intro w op
    by_cases hw : w.node_mode = NodeMode.OPERATIONAL
    · right
      rw [step_node_mode, hw]
      split <;> rfl
    · exact Or.inl hw

/-! ### The periodic tasks -/

/-- The memory-statistics block only appends to the log. -/
theorem process1HzTasks_memory_stats_eq {σ : Type} (env : Env σ) (w : World σ) :
    process1HzTasks_memory_stats env w =
      { w with
        log := w.log ++
          ([Event.printf_memory_pool_stats
              (env.canardGetPoolAllocatorStatistics w.canard).capacity_blocks
              (env.canardGetPoolAllocatorStatistics w.canard).current_usage_blocks
              (env.canardGetPoolAllocatorStatistics w.canard).peak_usage_blocks
              (peak_percent (env.canardGetPoolAllocatorStatistics w.canard))] ++
            (if peak_percent (env.canardGetPoolAllocatorStatistics w.canard) > 70 then
              [Event.puts_WARNING_ENLARGE_MEMORY_POOL] else [])) } := by
  unfold process1HzTasks_memory_stats
  dsimp only
  split <;> simp

/-- The log written by the node-status block. -/
theorem process1HzTasks_node_status_log {σ : Type} (env : Env σ) (w : World σ) :
    (process1HzTasks_node_status env w).log = w.log ++
      ([Event.canardBroadcast env.UAVCAN_PROTOCOL_NODESTATUS_SIGNATURE
          env.UAVCAN_PROTOCOL_NODESTATUS_ID w.transfer_id env.CANARD_TRANSFER_PRIORITY_LOW
          (env.uavcan_protocol_NodeStatus_encode (populateNodeStatus env w).1)
          ((env.uavcan_protocol_NodeStatus_encode (populateNodeStatus env w).1).length
            % 2 ^ 32 % 2 ^ 16)] ++
        (if (env.canardBroadcast w.canard
            env.UAVCAN_PROTOCOL_NODESTATUS_SIGNATURE env.UAVCAN_PROTOCOL_NODESTATUS_ID
            w.transfer_id env.CANARD_TRANSFER_PRIORITY_LOW
            (env.uavcan_protocol_NodeStatus_encode (populateNodeStatus env w).1)
            ((env.uavcan_protocol_NodeStatus_encode (populateNodeStatus env w).1).length
              % 2 ^ 32 % 2 ^ 16)).1 ≤ 0 then
          [Event.stderr_could_not_broadcast
            (env.canardBroadcast w.canard
              env.UAVCAN_PROTOCOL_NODESTATUS_SIGNATURE env.UAVCAN_PROTOCOL_NODESTATUS_ID
              w.transfer_id env.CANARD_TRANSFER_PRIORITY_LOW
              (env.uavcan_protocol_NodeStatus_encode (populateNodeStatus env w).1)
              ((env.uavcan_protocol_NodeStatus_encode (populateNodeStatus env w).1).length
                % 2 ^ 32 % 2 ^ 16)).1]
        else [])) := by
  obtain ⟨_, _, h3, h4, _, h6⟩ := populateNodeStatus_frame env w
  unfold process1HzTasks_node_status
  simp only [makeNodeStatusMessage, h3, h4, h6]
  split <;> simp

/-- The outside calls of one `process1HzTasks` call, in order. -/
theorem process1HzTasks_emitted_eq {σ : Type} (env : Env σ) (w : World σ)
    (timestamp_usec : Nat) :
    process1HzTasks_emitted env w timestamp_usec =
      [Event.canardCleanupStaleTransfers timestamp_usec,
        Event.printf_memory_pool_stats
          (env.canardGetPoolAllocatorStatistics
            (env.canardCleanupStaleTransfers w.canard timestamp_usec)).capacity_blocks
          (env.canardGetPoolAllocatorStatistics
            (env.canardCleanupStaleTransfers w.canard timestamp_usec)).current_usage_blocks
          (env.canardGetPoolAllocatorStatistics
            (env.canardCleanupStaleTransfers w.canard timestamp_usec)).peak_usage_blocks
          (peak_percent (env.canardGetPoolAllocatorStatistics
            (env.canardCleanupStaleTransfers w.canard timestamp_usec)))] ++
        (if peak_percent (env.canardGetPoolAllocatorStatistics
            (env.canardCleanupStaleTransfers w.canard timestamp_usec)) > 70 then
          [Event.puts_WARNING_ENLARGE_MEMORY_POOL] else []) ++
        [Event.canardBroadcast env.UAVCAN_PROTOCOL_NODESTATUS_SIGNATURE
          env.UAVCAN_PROTOCOL_NODESTATUS_ID w.transfer_id env.CANARD_TRANSFER_PRIORITY_LOW
          (env.uavcan_protocol_NodeStatus_encode (populateNodeStatus env w).1)
          ((env.uavcan_protocol_NodeStatus_encode (populateNodeStatus env w).1).length
            % 2 ^ 32 % 2 ^ 16)] ++
        (if (env.canardBroadcast (env.canardCleanupStaleTransfers w.canard timestamp_usec)
            env.UAVCAN_PROTOCOL_NODESTATUS_SIGNATURE env.UAVCAN_PROTOCOL_NODESTATUS_ID
            w.transfer_id env.CANARD_TRANSFER_PRIORITY_LOW
            (env.uavcan_protocol_NodeStatus_encode (populateNodeStatus env w).1)
            ((env.uavcan_protocol_NodeStatus_encode (populateNodeStatus env w).1).length
              % 2 ^ 32 % 2 ^ 16)).1 ≤ 0 then
          [Event.stderr_could_not_broadcast
            (env.canardBroadcast (env.canardCleanupStaleTransfers w.canard timestamp_usec)
              env.UAVCAN_PROTOCOL_NODESTATUS_SIGNATURE env.UAVCAN_PROTOCOL_NODESTATUS_ID
              w.transfer_id env.CANARD_TRANSFER_PRIORITY_LOW
              (env.uavcan_protocol_NodeStatus_encode (populateNodeStatus env w).1)
              ((env.uavcan_protocol_NodeStatus_encode (populateNodeStatus env w).1).length
                % 2 ^ 32 % 2 ^ 16)).1]
        else []) := by
  have hst : ∀ l : List Event, (populateNodeStatus env
      { w with
        canard := env.canardCleanupStaleTransfers w.canard timestamp_usec
        log := l }).1 = (populateNodeStatus env w).1 :=
    fun l => populateNodeStatus_status_congr env w _ rfl rfl rfl rfl
  unfold process1HzTasks_emitted process1HzTasks
  dsimp only
  rw [process1HzTasks_node_status_log, process1HzTasks_memory_stats_eq]
  dsimp only
  rw [hst]
  simp only [List.append_assoc, List.drop_left]
  simp

/-- The log after `process1HzTasks` is the log before followed by the calls of this call. -/
theorem process1HzTasks_log {σ : Type} (env : Env σ) (w : World σ) (timestamp_usec : Nat) :
    (process1HzTasks env w timestamp_usec).log =
      w.log ++ process1HzTasks_emitted env w timestamp_usec := by
  unfold process1HzTasks_emitted process1HzTasks
  dsimp only
  rw [process1HzTasks_node_status_log, process1HzTasks_memory_stats_eq]
  dsimp only
  simp only [List.append_assoc, List.drop_left]

/-- The whole-number percentage exceeds 70 exactly from 71 percent on, when it fits 16 bits. -/
theorem peak_percent_gt_70_iff (stats : CanardPoolAllocatorStatistics)
    (hcap : 0 < stats.capacity_blocks) (hpeak : stats.peak_usage_blocks < 2 ^ 16)
    (hfit : 100 * stats.peak_usage_blocks < 2 ^ 16 * stats.capacity_blocks) :
    peak_percent stats > 70 ↔ 71 * stats.capacity_blocks ≤ 100 * stats.peak_usage_blocks := by
  unfold peak_percent
  have h32 : 100 * stats.peak_usage_blocks % 2 ^ 32 = 100 * stats.peak_usage_blocks :=
    Nat.mod_eq_of_lt (by omega)
  have hq : 100 * stats.peak_usage_blocks / stats.capacity_blocks < 2 ^ 16 :=
    (Nat.div_lt_iff_lt_mul hcap).mpr hfit
  rw [h32, Nat.mod_eq_of_lt hq]
  show 71 ≤ 100 * stats.peak_usage_blocks / stats.capacity_blocks ↔ _
  rw [Nat.le_div_iff_mul_le hcap]

/-- C5 (as the code has it): from the initial state, after any operations that do not include
`process1HzTasks`, the first `process1HzTasks` call submits exactly one transfer, the heartbeat
broadcast, whose payload is the encoding of a node status with mode INITIALIZATION (the status
is built before the mode is advanced); the call leaves `node_mode` at OPERATIONAL, and every
GetNodeInfo response built in any state after that call reports mode OPERATIONAL. -/
theorem C5_first_heartbeat {σ : Type} (env : Env σ) (canard : CanardInstance) (socketcan : σ)
    (before : List Op) (hbefore : before.any Op.isProcess1HzTasks = false)
    (timestamp_usec : Nat) :
    submissions (process1HzTasks_emitted env (run env (initialWorld canard socketcan) before)
        timestamp_usec) =
      [Event.canardBroadcast env.UAVCAN_PROTOCOL_NODESTATUS_SIGNATURE
        env.UAVCAN_PROTOCOL_NODESTATUS_ID
        (run env (initialWorld canard socketcan) before).transfer_id
        env.CANARD_TRANSFER_PRIORITY_LOW
        (env.uavcan_protocol_NodeStatus_encode
          (populateNodeStatus env (run env (initialWorld canard socketcan) before)).1)
        ((env.uavcan_protocol_NodeStatus_encode
          (populateNodeStatus env (run env (initialWorld canard socketcan) before)).1).length
            % 2 ^ 32 % 2 ^ 16)] ∧
      (populateNodeStatus env (run env (initialWorld canard socketcan) before)).1.mode =
        NodeMode.INITIALIZATION ∧
      (process1HzTasks env (run env (initialWorld canard socketcan) before)
        timestamp_usec).node_mode = NodeMode.OPERATIONAL ∧
      (∀ later : List Op,
        (populateNodeInfoResponse env
          (run env (process1HzTasks env (run env (initialWorld canard socketcan) before)
            timestamp_usec) later)).1.status.mode = NodeMode.OPERATIONAL) := by
  refine ⟨?_, ?_, process1HzTasks_node_mode env _ _, ?_⟩
  · rw [process1HzTasks_emitted_eq]
    unfold submissions
    simp only [List.filter_append]
    split <;> split <;> simp [Event.isSubmission]
  · rw [populateNodeStatus_mode, run_node_mode, hbefore]
    rfl
  · intro later
    show (populateNodeStatus env _).1.mode = _
    rw [populateNodeStatus_mode, run_node_mode, process1HzTasks_node_mode]
    split <;> rfl

/-- C5 at a concrete input: a GetNodeInfo request from node 7, then the first periodic call. -/
theorem C5_first_heartbeat_witness :
    submissions (process1HzTasks_emitted (testEnv steadyClock 1 smallStats)
        (run (testEnv steadyClock 1 smallStats) (initialWorld emptyCanard 0)
          [Op.onTransferReceived
            ⟨CanardTransferType.CanardTransferTypeRequest, 1, 7, 3, 30⟩]) 10000000) =
      [Event.canardBroadcast 0x0F0868D0C1A7C6F1 341 0 24 [0, 0, 1, 0] 4] :=
  (C5_first_heartbeat (testEnv steadyClock 1 smallStats) emptyCanard 0
    [Op.onTransferReceived ⟨CanardTransferType.CanardTransferTypeRequest, 1, 7, 3, 30⟩]
    (by decide) 10000000).1.trans (by decide)

/-- C5 as stated fails: on the first `process1HzTasks` call from the initial state, the one
broadcast submitted is not the encoding of any node status whose mode is OPERATIONAL. -/
theorem C5_counterexample :
    ¬ ∃ st : uavcan_protocol_NodeStatus, st.mode = NodeMode.OPERATIONAL ∧
      ∃ sig id tid prio len : Nat,
        submissions (process1HzTasks_emitted (testEnv steadyClock 1 smallStats)
          (initialWorld emptyCanard 0) 10000000) =
        [Event.canardBroadcast sig id tid prio
          ((testEnv steadyClock 1 smallStats).uavcan_protocol_NodeStatus_encode st) len] := by
  rintro ⟨st, hmode, sig, id, tid, prio, len, h⟩
  have hlog : submissions (process1HzTasks_emitted (testEnv steadyClock 1 smallStats)
      (initialWorld emptyCanard 0) 10000000) =
      [Event.canardBroadcast 0x0F0868D0C1A7C6F1 341 0 24 [0, 0, 1, 0] 4] := by decide
  rw [hlog] at h
  simp only [testEnv, simpleNodeStatus_encode, hmode, NodeMode.code, List.cons.injEq,
    Event.canardBroadcast.injEq] at h
  omega

/-- C7 (as the code has it): for a pool-statistics snapshot with `capacity_blocks > 0`, 16-bit
counts, and a percentage that fits 16 bits (`100 * peak < 65536 * capacity`, which holds
whenever the peak does not exceed the capacity), `process1HzTasks` emits the capacity warning
exactly when the whole-number percentage exceeds 70, that is, when
`100 * peak_usage_blocks ≥ 71 * capacity_blocks`. -/
theorem C7_capacity_warning {σ : Type} (env : Env σ) (w : World σ) (timestamp_usec : Nat)
    (hcap : 0 < (env.canardGetPoolAllocatorStatistics
      (env.canardCleanupStaleTransfers w.canard timestamp_usec)).capacity_blocks)
    (hpeak : (env.canardGetPoolAllocatorStatistics
      (env.canardCleanupStaleTransfers w.canard timestamp_usec)).peak_usage_blocks < 2 ^ 16)
    (hfit : 100 * (env.canardGetPoolAllocatorStatistics
        (env.canardCleanupStaleTransfers w.canard timestamp_usec)).peak_usage_blocks <
      2 ^ 16 * (env.canardGetPoolAllocatorStatistics
        (env.canardCleanupStaleTransfers w.canard timestamp_usec)).capacity_blocks) :
    Event.puts_WARNING_ENLARGE_MEMORY_POOL ∈ process1HzTasks_emitted env w timestamp_usec ↔
      71 * (env.canardGetPoolAllocatorStatistics
          (env.canardCleanupStaleTransfers w.canard timestamp_usec)).capacity_blocks ≤
        100 * (env.canardGetPoolAllocatorStatistics
          (env.canardCleanupStaleTransfers w.canard timestamp_usec)).peak_usage_blocks := by
  rw [← peak_percent_gt_70_iff _ hcap hpeak hfit, process1HzTasks_emitted_eq]
  by_cases hp : peak_percent (env.canardGetPoolAllocatorStatistics
      (env.canardCleanupStaleTransfers w.canard timestamp_usec)) > 70
  · simp [hp]
  · have hno : ∀ (c : Prop) [Decidable c] (r : Int), Event.puts_WARNING_ENLARGE_MEMORY_POOL ∉
        (if c then [Event.stderr_could_not_broadcast r] else []) := by
      intro c _ r
      split <;> simp
    simp [hp, hno]

/-- C7 at a concrete input: 23 of 32 blocks (71 percent) gives the warning. -/
theorem C7_capacity_warning_witness :
    Event.puts_WARNING_ENLARGE_MEMORY_POOL ∈
      process1HzTasks_emitted (testEnv steadyClock 1 ⟨32, 5, 23⟩) (initialWorld emptyCanard 0)
        10000000 :=
  (C7_capacity_warning (testEnv steadyClock 1 ⟨32, 5, 23⟩) (initialWorld emptyCanard 0)
    10000000 (by decide) (by decide) (by decide)).mpr (by decide)

/-- C7 as stated fails: with 70 of 99 blocks used at the peak, `100 * peak > 70 * capacity`
holds and `process1HzTasks` emits no capacity warning. -/
theorem C7_counterexample :
    0 < tightStats.capacity_blocks ∧ tightStats.capacity_blocks < 2 ^ 16 ∧
      tightStats.peak_usage_blocks < 2 ^ 16 ∧
      ¬ (Event.puts_WARNING_ENLARGE_MEMORY_POOL ∈
          process1HzTasks_emitted (testEnv steadyClock 1 tightStats)
            (initialWorld emptyCanard 0) 10000000 ↔
        100 * tightStats.peak_usage_blocks > 70 * tightStats.capacity_blocks) := by
  decide

/-- The 16-bit conversion of the percentage loses the high bits: one block of capacity with a
recorded peak of 656 gives 65600 percent, stored as 64. -/
theorem peak_percent_wraps : peak_percent ⟨1, 0, 656⟩ = 64 := by
  decide

/-! ### The uptime epoch -/

/-- With the epoch already set (non-zero), `populateNodeStatus` keeps it and reports the
whole-second clock value minus the epoch. -/
theorem populateNodeStatus_of_epoch_set {σ : Type} (env : Env σ) (w : World σ)
    (h : w.started_at_sec ≠ 0) :
    (populateNodeStatus env w).2.started_at_sec = w.started_at_sec ∧
      (populateNodeStatus env w).1.uptime_sec =
        (env.clock w.clock_reads % 2 ^ 64 / 1000000 + 2 ^ 64 - w.started_at_sec)
          % 2 ^ 64 % 2 ^ 32 := by
  unfold populateNodeStatus populateNodeStatus_epoch getMonotonicTimestampUSec
  simp [h]

/-- With the epoch still zero, `populateNodeStatus` sets it to the whole-second clock value, as
a `uint32_t`. -/
theorem populateNodeStatus_of_epoch_unset {σ : Type} (env : Env σ) (w : World σ)
    (h : w.started_at_sec = 0) :
    (populateNodeStatus env w).2.started_at_sec =
      env.clock w.clock_reads % 2 ^ 64 / 1000000 % 2 ^ 32 := by
  unfold populateNodeStatus populateNodeStatus_epoch getMonotonicTimestampUSec
  simp [h]

/-- C9 fails on the code when the first call reads a clock below one second: with a
non-decreasing clock that reads 0.5 s during the first `populateNodeStatus` call and 5 s during
the second, the first call leaves `started_at_sec` at 0 and reports uptime 0, and the second
call moves `started_at_sec` to 5 and reports uptime 0, not 5. -/
theorem C9_epoch_moves_after_early_first_call :
    Monotone earlyClock ∧
      (populateNodeStatus (testEnv earlyClock 1 smallStats)
        (initialWorld emptyCanard 0)).2.started_at_sec = 0 ∧
      (populateNodeStatus (testEnv earlyClock 1 smallStats)
        (initialWorld emptyCanard 0)).1.uptime_sec = 0 ∧
      (populateNodeStatus (testEnv earlyClock 1 smallStats)
        (populateNodeStatus (testEnv earlyClock 1 smallStats)
          (initialWorld emptyCanard 0)).2).2.started_at_sec = 5 ∧
      (populateNodeStatus (testEnv earlyClock 1 smallStats)
        (populateNodeStatus (testEnv earlyClock 1 smallStats)
          (initialWorld emptyCanard 0)).2).1.uptime_sec = 0 := by
  refine ⟨?_, by decide, by decide, by decide, by decide⟩
  intro a b hab
  unfold earlyClock
  split <;> split <;> omega

/-! ### The main loop -/

/-- The number of recorded `process1HzTasks` calls is additive over concatenation. -/
theorem firings_append (l1 l2 : List Event) : firings (l1 ++ l2) = firings l1 + firings l2 := by
  simp [firings]

/-- The number of recorded `process1HzTasks` calls, one logged call at a time. -/
theorem firings_cons (e : Event) (l : List Event) :
    firings (e :: l) = (if e.isPoolStats = true then 1 else 0) + firings l := by
  unfold firings
  rw [List.filter_cons]
  split <;> simp [Nat.add_comm]

/-- An empty log records no `process1HzTasks` call. -/
theorem firings_nil : firings [] = 0 := rfl

/-- The transmit loop records no `process1HzTasks` call. -/
theorem firings_transmitting_log (attempts : List (CanardCANFrame × Int)) :
    firings (transmitting_log attempts) = 0 := by
  induction attempts with
  | nil => rfl
  | cons a rest ih =>
    obtain ⟨txf, tx_res⟩ := a
    unfold transmitting_log
    split <;> simpa [firings, Event.isPoolStats] using ih

/-- `onTransferReceived` records no `process1HzTasks` call. -/
theorem onTransferReceived_firings {σ : Type} (env : Env σ) (w : World σ)
    (transfer : CanardRxTransfer) :
    firings (onTransferReceived env w transfer).log = firings w.log := by
  rw [onTransferReceived_log, firings_append]
  split
  · split <;> simp [firings, Event.isPoolStats]
  · rfl

/-- `processTxRxOnce` records no `process1HzTasks` call. -/
theorem processTxRxOnce_firings {σ : Type} (env : Env σ) (w : World σ) (timeout_msec : Int) :
    firings (processTxRxOnce env w timeout_msec).log = firings w.log := by
  unfold processTxRxOnce
  dsimp only
  split
  · simp [firings_append, firings_transmitting_log, getMonotonicTimestampUSec,
      firings_cons, firings_nil, Event.isPoolStats]
  · split
    · unfold canardHandleRxFrame
      dsimp only
      split
      · simp [firings_append, firings_transmitting_log, getMonotonicTimestampUSec,
          firings_cons, firings_nil, Event.isPoolStats]
      · rw [onTransferReceived_firings]
        simp [firings_append, firings_transmitting_log, getMonotonicTimestampUSec,
          firings_cons, firings_nil, Event.isPoolStats]
    · simp [firings_append, firings_transmitting_log, getMonotonicTimestampUSec,
        firings_cons, firings_nil, Event.isPoolStats]

/-- `process1HzTasks` records exactly one `process1HzTasks` call. -/
theorem process1HzTasks_firings {σ : Type} (env : Env σ) (w : World σ) (timestamp_usec : Nat) :
    firings (process1HzTasks env w timestamp_usec).log = firings w.log + 1 := by
  rw [process1HzTasks_log, process1HzTasks_emitted_eq, firings_append]
  congr 1
  simp only [firings, List.filter_append]
  split <;> split <;> simp [Event.isPoolStats]

/-- `populateNodeStatus` never lowers the number of clock readings taken. -/
theorem populateNodeStatus_clock_reads {σ : Type} (env : Env σ) (w : World σ) :
    w.clock_reads ≤ (populateNodeStatus env w).2.clock_reads := by
  unfold populateNodeStatus populateNodeStatus_epoch getMonotonicTimestampUSec
  dsimp only
  split
  · show w.clock_reads ≤ w.clock_reads + 1 + 1
    omega
  · show w.clock_reads ≤ w.clock_reads + 1
    omega

/-- `onTransferReceived` never lowers the number of clock readings taken. -/
theorem onTransferReceived_clock_reads {σ : Type} (env : Env σ) (w : World σ)
    (transfer : CanardRxTransfer) :
    w.clock_reads ≤ (onTransferReceived env w transfer).clock_reads := by
  unfold onTransferReceived
  have h := populateNodeStatus_clock_reads env
    { w with log := w.log ++ [Event.printf_GetNodeInfo_request transfer.source_node_id] }
  split
  · dsimp only
    split <;> simpa [makeNodeInfoResponse, populateNodeInfoResponse] using h
  · exact le_refl _

/-- `processTxRxOnce` never lowers the number of clock readings taken. -/
theorem processTxRxOnce_clock_reads {σ : Type} (env : Env σ) (w : World σ)
    (timeout_msec : Int) :
    w.clock_reads ≤ (processTxRxOnce env w timeout_msec).clock_reads := by
  unfold processTxRxOnce
  dsimp only
  split
  · simp [getMonotonicTimestampUSec]
  · split
    · unfold canardHandleRxFrame
      dsimp only
      split
      · simp [getMonotonicTimestampUSec]
      · refine le_trans ?_ (onTransferReceived_clock_reads env _ _)
        simp [getMonotonicTimestampUSec]
    · simp [getMonotonicTimestampUSec]

/-- The node-status block reads the clock as `populateNodeStatus` does. -/
theorem process1HzTasks_node_status_clock_reads {σ : Type} (env : Env σ) (w : World σ) :
    (process1HzTasks_node_status env w).clock_reads =
      (populateNodeStatus env w).2.clock_reads := by
  unfold process1HzTasks_node_status
  dsimp only
  split <;> rfl

/-- `process1HzTasks` never lowers the number of clock readings taken. -/
theorem process1HzTasks_clock_reads {σ : Type} (env : Env σ) (w : World σ)
    (timestamp_usec : Nat) :
    w.clock_reads ≤ (process1HzTasks env w timestamp_usec).clock_reads := by
  unfold process1HzTasks
  dsimp only
  rw [process1HzTasks_node_status_clock_reads]
  refine le_trans ?_ (populateNodeStatus_clock_reads env _)
  rw [process1HzTasks_memory_stats_eq]

/-- Whether one pass through the loop body calls `process1HzTasks`, as seen in the log. -/
theorem main_iteration_firings {σ : Type} (env : Env σ) (m : MainState σ) :
    firings (main_iteration env m).world.log =
      firings m.world.log + (if main_ts env m ≥ m.next_1hz_service_at then 1 else 0) := by
  unfold main_iteration main_ts
  dsimp only
  split
  · rw [process1HzTasks_firings]
    simp [getMonotonicTimestampUSec, processTxRxOnce_firings]
  · simp [getMonotonicTimestampUSec, processTxRxOnce_firings]

/-- The deadline after one pass through the loop body. -/
theorem main_iteration_deadline {σ : Type} (env : Env σ) (m : MainState σ) :
    (main_iteration env m).next_1hz_service_at =
      (if main_ts env m ≥ m.next_1hz_service_at then (m.next_1hz_service_at + 1000000) % 2 ^ 64
        else m.next_1hz_service_at) := by
  unfold main_iteration main_ts
  dsimp only
  split <;> rfl

/-- One pass through the loop body never lowers the number of clock readings taken. -/
theorem main_iteration_clock_reads {σ : Type} (env : Env σ) (m : MainState σ) :
    m.world.clock_reads ≤ (main_iteration env m).world.clock_reads := by
  have h1 := processTxRxOnce_clock_reads env m.world 10
  unfold main_iteration
  dsimp only
  split
  · refine le_trans ?_ (process1HzTasks_clock_reads env _ _)
    simp only [getMonotonicTimestampUSec]
    omega
  · simp only [getMonotonicTimestampUSec]
    omega

/-- The reading `ts` of a pass is a clock reading taken no earlier than the pass begins. -/
theorem main_ts_eq {σ : Type} (env : Env σ) (m : MainState σ) :
    main_ts env m = env.clock (processTxRxOnce env m.world 10).clock_reads % 2 ^ 64 :=
  rfl

/-- After `n` passes the deadline is its value before plus one second per recorded call. -/
theorem main_iterations_deadline {σ : Type} (env : Env σ) (n : Nat) (m : MainState σ)
    (h : m.next_1hz_service_at < 2 ^ 64) :
    ∃ k, k ≤ n ∧
      firings (main_iterations env n m).world.log = firings m.world.log + k ∧
      (main_iterations env n m).next_1hz_service_at =
        (m.next_1hz_service_at + k * 1000000) % 2 ^ 64 := by
  induction n generalizing m with
  | zero =>
    refine ⟨0, le_refl _, rfl, ?_⟩
    show m.next_1hz_service_at = (m.next_1hz_service_at + 0 * 1000000) % 2 ^ 64
    rw [Nat.zero_mul, Nat.add_zero, Nat.mod_eq_of_lt h]
  | succ n ih =>
    have hf := main_iteration_firings env m
    have hd := main_iteration_deadline env m
    by_cases hts : main_ts env m ≥ m.next_1hz_service_at
    · rw [if_pos hts] at hf hd
      have hlt : (main_iteration env m).next_1hz_service_at < 2 ^ 64 := by
        rw [hd]
        exact Nat.mod_lt _ (by norm_num)
      obtain ⟨k, hk, h1, h2⟩ := ih (main_iteration env m) hlt
      refine ⟨k + 1, by omega, ?_, ?_⟩
      · show firings (main_iterations env n (main_iteration env m)).world.log = _
        rw [h1, hf]
        omega
      · show (main_iterations env n (main_iteration env m)).next_1hz_service_at = _
        rw [h2, hd, Nat.mod_add_mod]
        congr 1
        ring
    · rw [if_neg hts] at hf hd
      obtain ⟨k, hk, h1, h2⟩ := ih (main_iteration env m) (by rw [hd]; exact h)
      refine ⟨k, by omega, ?_, ?_⟩
      · show firings (main_iterations env n (main_iteration env m)).world.log = _
        rw [h1, hf]
        rfl
      · show (main_iterations env n (main_iteration env m)).next_1hz_service_at = _
        rw [h2, hd]

/-- When the clock is already `n` seconds past the deadline, each of the next `n` passes calls
`process1HzTasks`. -/
theorem main_iterations_catch_up {σ : Type} (env : Env σ) (hmono : Monotone env.clock)
    (hbound : ∀ k, env.clock k < 2 ^ 64) (n : Nat) (m : MainState σ)
    (hstall : m.next_1hz_service_at + n * 1000000 ≤ env.clock m.world.clock_reads) :
    firings (main_iterations env n m).world.log = firings m.world.log + n ∧
      (main_iterations env n m).next_1hz_service_at = m.next_1hz_service_at + n * 1000000 := by
  induction n generalizing m with
  | zero => exact ⟨rfl, rfl⟩
  | succ n ih =>
    have hf := main_iteration_firings env m
    have hd := main_iteration_deadline env m
    have hr := main_iteration_clock_reads env m
    have hb := hbound m.world.clock_reads
    have hts : main_ts env m ≥ m.next_1hz_service_at := by
      rw [main_ts_eq, Nat.mod_eq_of_lt (hbound _)]
      have := hmono (processTxRxOnce_clock_reads env m.world 10)
      omega
    rw [if_pos hts] at hf hd
    have hd2 : (main_iteration env m).next_1hz_service_at = m.next_1hz_service_at + 1000000 := by
      rw [hd]
      exact Nat.mod_eq_of_lt (by omega)
    have hnext : (main_iteration env m).next_1hz_service_at + n * 1000000 ≤
        env.clock (main_iteration env m).world.clock_reads := by
      have := hmono hr
      rw [hd2]
      omega
    obtain ⟨h1, h2⟩ := ih (main_iteration env m) hnext
    constructor
    · show firings (main_iterations env n (main_iteration env m)).world.log = _
      rw [h1, hf]
      omega
    · show (main_iterations env n (main_iteration env m)).next_1hz_service_at = _
      rw [h2, hd2]
      omega

/-- What one pass through the loop body does to the program state: `processTxRxOnce`, one
clock reading, and then `process1HzTasks` on that reading exactly when it has reached the
deadline. -/
theorem main_iteration_world {σ : Type} (env : Env σ) (m : MainState σ) :
    (main_iteration env m).world =
      (if main_ts env m ≥ m.next_1hz_service_at then
        process1HzTasks env (getMonotonicTimestampUSec env (processTxRxOnce env m.world 10)).2
          (main_ts env m)
      else (getMonotonicTimestampUSec env (processTxRxOnce env m.world 10)).2) := by
  unfold main_iteration main_ts
  dsimp only
  split <;> rfl

/-- The state after `n + 1` passes is one pass applied to the state after `n` passes. -/
theorem main_iterations_succ {σ : Type} (env : Env σ) (n : Nat) (m : MainState σ) :
    main_iterations env (n + 1) m = main_iteration env (main_iterations env n m) := by
  induction n generalizing m with
  | zero => rfl
  | succ n ih =>
    show main_iterations env (n + 1) (main_iteration env m) = _
    rw [ih (main_iteration env m)]
    rfl

/-- Passes through the loop body never lower the number of clock readings taken. -/
theorem main_iterations_clock_reads {σ : Type} (env : Env σ) (n : Nat) (m : MainState σ) :
    m.world.clock_reads ≤ (main_iterations env n m).world.clock_reads := by
  induction n generalizing m with
  | zero => exact le_refl _
  | succ n ih => exact le_trans (main_iteration_clock_reads env m) (ih (main_iteration env m))

/-- After `n` passes, the recorded `process1HzTasks` calls and the deadline both follow the
number of passes whose reading had reached the deadline. -/
theorem main_iterations_due_count {σ : Type} (env : Env σ) (n : Nat) (m : MainState σ)
    (h : m.next_1hz_service_at < 2 ^ 64) :
    main_due_count env n m ≤ n ∧
      firings (main_iterations env n m).world.log =
        firings m.world.log + main_due_count env n m ∧
      (main_iterations env n m).next_1hz_service_at =
        (m.next_1hz_service_at + main_due_count env n m * 1000000) % 2 ^ 64 := by
  induction n generalizing m with
  | zero =>
    refine ⟨le_refl _, rfl, ?_⟩
    show m.next_1hz_service_at = (m.next_1hz_service_at + 0 * 1000000) % 2 ^ 64
    rw [Nat.zero_mul, Nat.add_zero, Nat.mod_eq_of_lt h]
  | succ n ih =>
    have hf := main_iteration_firings env m
    have hd := main_iteration_deadline env m
    have hlt : (main_iteration env m).next_1hz_service_at < 2 ^ 64 := by
      rw [hd]
      split
      · exact Nat.mod_lt _ (by norm_num)
      · exact h
    obtain ⟨h0, h1, h2⟩ := ih (main_iteration env m) hlt
    refine ⟨?_, ?_, ?_⟩
    · show (if main_ts env m ≥ m.next_1hz_service_at then 1 else 0) +
        main_due_count env n (main_iteration env m) ≤ n + 1
      split <;> omega
    · show firings (main_iterations env n (main_iteration env m)).world.log =
        firings m.world.log + ((if main_ts env m ≥ m.next_1hz_service_at then 1 else 0) +
          main_due_count env n (main_iteration env m))
      rw [h1, hf]
      omega
    · show (main_iterations env n (main_iteration env m)).next_1hz_service_at =
        (m.next_1hz_service_at + ((if main_ts env m ≥ m.next_1hz_service_at then 1 else 0) +
          main_due_count env n (main_iteration env m)) * 1000000) % 2 ^ 64
      rw [h2, hd]
      by_cases hts : main_ts env m ≥ m.next_1hz_service_at
      · rw [if_pos hts, if_pos hts, Nat.mod_add_mod]
        congr 1
        ring
      · rw [if_neg hts, if_neg hts, Nat.zero_add]

/-- When the clock is already `n` seconds past the deadline, the reading of each of the next
`n` passes has reached the deadline of that pass. -/
theorem main_iterations_due {σ : Type} (env : Env σ) (hmono : Monotone env.clock)
    (hbound : ∀ k, env.clock k < 2 ^ 64) (n : Nat) (m : MainState σ)
    (hstall : m.next_1hz_service_at + n * 1000000 ≤ env.clock m.world.clock_reads)
    (j : Nat) (hj : j < n) :
    main_ts env (main_iterations env j m) ≥ (main_iterations env j m).next_1hz_service_at := by
  have hj2 : m.next_1hz_service_at + j * 1000000 ≤ env.clock m.world.clock_reads := by
    have : j * 1000000 ≤ n * 1000000 := Nat.mul_le_mul_right _ (le_of_lt hj)
    omega
  obtain ⟨_, hnext⟩ := main_iterations_catch_up env hmono hbound j m hj2
  rw [hnext, main_ts_eq, Nat.mod_eq_of_lt (hbound _)]
  have h1 := hmono (le_trans (main_iterations_clock_reads env j m)
    (processTxRxOnce_clock_reads env (main_iterations env j m).world 10))
  have : (j + 1) * 1000000 ≤ n * 1000000 := Nat.mul_le_mul_right _ hj
  omega

/-- C8: one pass through the body of the main loop runs `processTxRxOnce`, reads the clock
once (`ts`), and then calls `process1HzTasks` with `ts` exactly when `ts >= next_1hz_service_at`,
at most once: the state after the pass is the state `process1HzTasks` returns when the test
holds and the state after the clock reading when it does not.  A pass that calls it moves the
deadline by 1,000,000 (modulo 2^64) whatever `ts` is and a pass that does not leaves the
deadline alone, so after `n` passes of which `k` were due the deadline is its initial value
plus `k * 1,000,000` modulo 2^64, and `k` `process1HzTasks` calls are in the log.  When the
clock is non-decreasing and already reads `n` seconds or more past the deadline, each of the
next `n` passes is due and its state is the one `process1HzTasks` returns. -/
theorem C8_periodic_deadline {σ : Type} (env : Env σ) :
    (∀ m : MainState σ,
      (main_iteration env m).world =
        (if main_ts env m ≥ m.next_1hz_service_at then
          process1HzTasks env
            (getMonotonicTimestampUSec env (processTxRxOnce env m.world 10)).2 (main_ts env m)
        else (getMonotonicTimestampUSec env (processTxRxOnce env m.world 10)).2) ∧
      main_ts env m = env.clock (processTxRxOnce env m.world 10).clock_reads % 2 ^ 64 ∧
      firings (main_iteration env m).world.log =
        firings m.world.log + (if main_ts env m ≥ m.next_1hz_service_at then 1 else 0) ∧
      (main_iteration env m).next_1hz_service_at =
        (if main_ts env m ≥ m.next_1hz_service_at then
          (m.next_1hz_service_at + 1000000) % 2 ^ 64 else m.next_1hz_service_at)) ∧
    (∀ (w : World σ) (n : Nat),
      main_due_count env n (main_start env w) ≤ n ∧
      firings (main_iterations env n (main_start env w)).world.log =
        firings (main_start env w).world.log + main_due_count env n (main_start env w) ∧
      (main_iterations env n (main_start env w)).next_1hz_service_at =
        ((main_start env w).next_1hz_service_at +
          main_due_count env n (main_start env w) * 1000000) % 2 ^ 64) ∧
    (∀ (n : Nat) (m : MainState σ),
      main_iterations env (n + 1) m = main_iteration env (main_iterations env n m)) ∧
    (Monotone env.clock → (∀ k, env.clock k < 2 ^ 64) →
      ∀ (m : MainState σ) (n : Nat),
        m.next_1hz_service_at + n * 1000000 ≤ env.clock m.world.clock_reads →
        (∀ j, j ≤ n →
          firings (main_iterations env j m).world.log = firings m.world.log + j ∧
          (main_iterations env j m).next_1hz_service_at =
            m.next_1hz_service_at + j * 1000000) ∧
        (∀ j, j < n →
          main_ts env (main_iterations env j m) ≥
            (main_iterations env j m).next_1hz_service_at ∧
          (main_iterations env (j + 1) m).world =
            process1HzTasks env
              (getMonotonicTimestampUSec env
                (processTxRxOnce env (main_iterations env j m).world 10)).2
              (main_ts env (main_iterations env j m)))) := by
  refine ⟨fun m => ⟨main_iteration_world env m, main_ts_eq env m, main_iteration_firings env m,
    main_iteration_deadline env m⟩, ?_, main_iterations_succ env, ?_⟩
  · intro w n
    exact main_iterations_due_count env n (main_start env w) (Nat.mod_lt _ (by norm_num))
  · intro hmono hbound m n hstall
    constructor
    · intro j hj
      refine main_iterations_catch_up env hmono hbound j m (le_trans ?_ hstall)
      have : j * 1000000 ≤ n * 1000000 := Nat.mul_le_mul_right _ hj
      omega
    · intro j hj
      have hdue := main_iterations_due env hmono hbound n m hstall j hj
      refine ⟨hdue, ?_⟩
      rw [main_iterations_succ, main_iteration_world, if_pos hdue]

/-- The test clock is non-decreasing. -/
theorem steadyClock_monotone : Monotone steadyClock := by
  intro a b hab
  unfold steadyClock
  omega

/-- The test clock stays within `uint64_t`. -/
theorem steadyClock_lt (k : Nat) : steadyClock k < 2 ^ 64 := by
  unfold steadyClock
  omega

/-- C8 at a concrete input: the deadline is 7 s and the clock reads 10 s, so each of the next
three passes calls `process1HzTasks` and the deadline ends at 10 s. -/
theorem C8_periodic_deadline_witness :
    firings (main_iterations (testEnv steadyClock 1 smallStats) 3
        { world := initialWorld emptyCanard 0, next_1hz_service_at := 7000000 }).world.log = 3 ∧
      (main_iterations (testEnv steadyClock 1 smallStats) 3
        { world := initialWorld emptyCanard 0, next_1hz_service_at := 7000000 }
        ).next_1hz_service_at = 10000000 ∧
      submissions (main_iterations (testEnv steadyClock 1 smallStats) 1
        { world := initialWorld emptyCanard 0, next_1hz_service_at := 7000000 }).world.log =
        [Event.canardBroadcast 0x0F0868D0C1A7C6F1 341 0 24 [0, 0, 1, 0] 4] :=
  have h := (C8_periodic_deadline (testEnv steadyClock 1 smallStats)).2.2.2 steadyClock_monotone
    steadyClock_lt { world := initialWorld emptyCanard 0, next_1hz_service_at := 7000000 } 3
    (by decide)
  ⟨(h.1 3 (le_refl 3)).1, (h.1 3 (le_refl 3)).2,
    (congrArg (fun w : World Nat => submissions w.log) (h.2 0 (by decide)).2).trans
      (by decide)⟩

end UavcanExample
